import Mathlib

/-!
# InkTrust invisible-verification service: a shallow embedding

This file embeds the core of the InkTrust bot-detection service in Lean 4 and
proves properties of the session state machine and the four signal analyzers.

Modeling conventions, used consistently below:

* JS numbers are modeled as `ℝ`; `Math.sqrt` is `Real.sqrt`, `Math.min`/`max`
  are `min`/`max`.  Where JS divides by a quantity that can be zero and then
  compares the result (float `NaN`/`Infinity` semantics), the comparison is
  modeled by an explicit helper (`jsDivLt`/`jsDivGt`) whose defining equations
  record the float behavior.
* JS truthiness tests on numbers (`a || b`) are modeled by `jsOrNum`:
  a present, non-zero value is kept, otherwise the fallback is used.
* External libraries (the `ml-pca` PCA, the `bowser`/`device-detector-js`
  user-agent parsers, `geoip-lite`, `ipaddr.js`, `uuid`, `Date.now`) are
  collaborators outside this repository; their outputs are passed in as
  explicit arguments ("oracles") so every theorem quantifies over them.
* The one JS exception reachable inside an analyzer (accessing
  `event.data.timestamp` on a click/mousemove event without a `data` object in
  `analyzeClickPattern`) is modeled by returning `none`; the route-level
  `try/catch` then corresponds to an error response.
* Diagnostic `metrics` bags are floating-point statistics that no code path
  ever reads back; only the fields that feed decisions are kept in the result
  records.
-/

set_option maxRecDepth 8000

namespace InkTrust

/-- JS `String.prototype.includes`: substring test. -/
def jsIncludes (s sub : String) : Bool := decide (sub.data <:+: s.data)

/-- JS `String.prototype.toLowerCase` (ASCII range, which covers all uses here). -/
def lowerStr (s : String) : String := ⟨s.data.map Char.toLower⟩

/-- JS `String.prototype.split(c)` on a one-character separator. -/
def splitCh (c : Char) : List Char → List (List Char)
  | [] => [[]]
  | a :: as =>
    let r := splitCh c as
    if a = c then [] :: r else (a :: r.headD []) :: r.tail

/-- JS `String.prototype.trim` (space characters, which covers all uses here). -/
def trimStr (s : String) : String :=
  ⟨((s.data.dropWhile (· = ' ')).reverse.dropWhile (· = ' ')).reverse⟩

/-- JS `a || b` where `a` is an optional number: a present non-zero (truthy)
value wins, otherwise the fallback is used. -/
noncomputable def jsOrNum (a : Option ℝ) (b : ℝ) : ℝ :=
  match a with
  | some v => if v = 0 then b else v
  | none => b

/-- `Math.max(0, Math.min(100, x))`. -/
noncomputable def jsClamp (x : ℝ) : ℝ := max 0 (min 100 x)

/-- Mean of a list, `sum / length`; for the empty list JS produces `NaN` and
every comparison against it is false, matching `0` here on all paths used. -/
noncomputable def jsMean (l : List ℝ) : ℝ := l.sum / l.length

/-- Population standard deviation `sqrt (Σ (x - mean)² / n)`. -/
noncomputable def jsStdDev (l : List ℝ) : ℝ :=
  Real.sqrt ((l.map (fun x => (x - jsMean l) ^ 2)).sum / l.length)

/-- Models the JS comparison `x / y < c` for `x ≥ 0` under float semantics:
when `y = 0`, JS produces `NaN` (if `x = 0`) or `+Infinity` (if `x > 0`), and
either way the `<` test is false. -/
noncomputable def jsDivLt (x y c : ℝ) : Bool :=
  if y = 0 then false else decide (x / y < c)

/-- Models the JS comparison `x / y > c` for `x ≥ 0`, `c > 0` under float
semantics: when `y = 0`, JS produces `NaN` (if `x = 0`, test false) or
`+Infinity` (if `x > 0`, test true). -/
noncomputable def jsDivGt (x y c : ℝ) : Bool :=
  if y = 0 then decide (0 < x) else decide (c < x / y)

/-- Consecutive pairs `(l[i-1], l[i])` of a list. -/
def consecPairs {α : Type} : List α → List (α × α)
  | a :: b :: rest => (a, b) :: consecPairs (b :: rest)
  | _ => []

/-! ## Events (`/api/verify` event records)

An event is `{ type, data, timestamp }`: the client-supplied type tag and
payload plus the server arrival time.  (The stored record also carries the
request headers, which no analyzer reads; they are not modeled.) -/

structure EventData where
  x : Option ℝ
  y : Option ℝ
  timestamp : Option ℝ

structure Event where
  type : String
  data : Option EventData
  timestamp : ℝ

/-- `event.data?.timestamp || event.timestamp || Date.now()`. -/
noncomputable def eventTime (now : ℝ) (e : Event) : ℝ :=
  jsOrNum (e.data.bind EventData.timestamp) (jsOrNum (some e.timestamp) now)

/-! ## Behavior analyzer (`utils/behavior-analyzer.js`) -/

structure TrajectoryResult where
  isNatural : Bool
  accelerationChanges : ℕ
  directionChanges : ℕ
  straightLineRatio : ℝ

/-- Coordinate/timestamp extraction: events with a `data` object whose `x` and
`y` are numbers contribute `([x, y], data.timestamp || timestamp || now)`. -/
noncomputable def trajCoords (now : ℝ) (mouseEvents : List Event) :
    List ((ℝ × ℝ) × ℝ) :=
  mouseEvents.filterMap fun e =>
    match e.data with
    | some d =>
      match d.x, d.y with
      | some x, some y =>
        some ((x, y), jsOrNum d.timestamp (jsOrNum (some e.timestamp) now))
      | _, _ => none
    | none => none

/-- Instantaneous speeds: for consecutive points, `dt = Δtimestamp / 1000`;
when `dt > 0`, speed is `sqrt (dx² + dy²) / dt`. -/
noncomputable def trajSpeeds (pts : List ((ℝ × ℝ) × ℝ)) : List ℝ :=
  (consecPairs pts).filterMap fun pq =>
    let dt := (pq.2.2 - pq.1.2) / 1000
    if 0 < dt then
      some (Real.sqrt ((pq.2.1.1 - pq.1.1.1) ^ 2 + (pq.2.1.2 - pq.1.1.2) ^ 2) / dt)
    else none

/-- Count of sign flips between consecutive accelerations (speed differences). -/
noncomputable def accelerationChangesOf (speeds : List ℝ) : ℕ :=
  let accs := (consecPairs speeds).map fun ab => ab.2 - ab.1
  (consecPairs accs).countP fun pc =>
    decide ((0 < pc.2 ∧ pc.1 < 0) ∨ (pc.2 < 0 ∧ 0 < pc.1))

/-- Count of direction changes: for consecutive displacement vectors with
positive magnitudes, the cosine of the angle between them is below `0.9`. -/
noncomputable def directionChangesOf (coords : List (ℝ × ℝ)) : ℕ :=
  let disp := (consecPairs coords).map fun pq => (pq.2.1 - pq.1.1, pq.2.2 - pq.1.2)
  (consecPairs disp).countP fun vv =>
    let dot := vv.1.1 * vv.2.1 + vv.1.2 * vv.2.2
    let m1 := Real.sqrt (vv.1.1 * vv.1.1 + vv.1.2 * vv.1.2)
    let m2 := Real.sqrt (vv.2.1 * vv.2.1 + vv.2.2 * vv.2.2)
    decide (0 < m1 ∧ 0 < m2 ∧ dot / (m1 * m2) < 0.9)

/-- `analyzeMouseTrajectory`.  `pcaExplainedFirst` is the first explained
variance ratio computed by the external `ml-pca` library on the point cloud
(`none` models the `catch` branch, which falls back to `0.5`). -/
noncomputable def analyzeMouseTrajectory (now : ℝ) (pcaExplainedFirst : Option ℝ)
    (mouseEvents : List Event) : TrajectoryResult :=
  if mouseEvents.length < 5 then ⟨false, 0, 0, 0⟩
  else
    let pts := trajCoords now mouseEvents
    if pts.length < 5 then ⟨false, 0, 0, 0⟩
    else
      let speeds := trajSpeeds pts
      let speedVariation := jsStdDev speeds
      let accChanges := accelerationChangesOf speeds
      let dirChanges := directionChangesOf (pts.map Prod.fst)
      let ratio : ℝ :=
        match pcaExplainedFirst with
        | some r => r
        | none => 0.5
      ⟨decide (50 < speedVariation) && decide (2 ≤ accChanges) &&
         decide (3 ≤ dirChanges) && decide (ratio < 0.98),
       accChanges, dirChanges, ratio⟩

structure ClickPatternResult where
  isNatural : Bool
  avgTimeBetweenClicks : ℝ
  clicksWithoutMovement : ℕ

/-- The backwards scan over `allEvents` looking for a mousemove within 1000 ms
before `clickTime`.  Accessing `event.data.timestamp` on a mousemove without a
`data` object throws in JS, modeled by `none`. -/
noncomputable def findMovementBefore (now clickTime : ℝ) : List Event → Option Bool
  | [] => some false
  | e :: rest =>
    if e.type = "mousemove" then
      match e.data with
      | none => none
      | some d =>
        let t := jsOrNum d.timestamp (jsOrNum (some e.timestamp) now)
        if t < clickTime ∧ clickTime - t < 1000 then some true
        else findMovementBefore now clickTime rest
    else findMovementBefore now clickTime rest

/-- Click times, `clickEvents[i].data.timestamp || …`; a click without a
`data` object throws in JS (`none`). -/
noncomputable def clickTimesOf (now : ℝ) (clickEvents : List Event) :
    Option (List ℝ) :=
  clickEvents.mapM fun e =>
    match e.data with
    | none => none
    | some d => some (jsOrNum d.timestamp (jsOrNum (some e.timestamp) now))

/-- `analyzeClickPattern(clickEvents, allEvents)`. -/
noncomputable def analyzeClickPattern (now : ℝ) (clickEvents allEvents : List Event) :
    Option ClickPatternResult :=
  if clickEvents.length < 2 then some ⟨false, 0, 0⟩
  else
    match clickTimesOf now clickEvents with
    | none => none
    | some clickTimes =>
      let avg :=
        (((consecPairs clickTimes).map fun ab => ab.2 - ab.1).sum) /
          ((clickTimes.length : ℝ) - 1)
      match clickTimes.mapM fun ct => findMovementBefore now ct allEvents.reverse with
      | none => none
      | some founds =>
        let cwm := founds.countP (· = false)
        let precision : ℝ := 1 - (cwm : ℝ) / (clickEvents.length : ℝ)
        some ⟨decide (500 < avg) && decide ((0.7 : ℝ) < precision), avg, cwm⟩

structure TimeIntervalResult where
  isNatural : Bool
  suspiciouslyRegularIntervals : Bool

/-- `analyzeEventTimeIntervals`: coefficient of variation of inter-event
intervals; "suspiciously regular" below `0.1`, natural above `0.2`. -/
noncomputable def analyzeEventTimeIntervals (now : ℝ) (events : List Event) :
    TimeIntervalResult :=
  if events.length < 5 then ⟨false, false⟩
  else
    let timestamps := events.map (eventTime now)
    let intervals := (consecPairs timestamps).map fun ab => ab.2 - ab.1
    let avg := intervals.sum / (intervals.length : ℝ)
    let sd := jsStdDev intervals
    let susp := jsDivLt sd avg 0.1
    ⟨!susp && jsDivGt sd avg 0.2, susp⟩

structure KeyPressResult where
  isNatural : Bool
  suspiciouslyFastTyping : Bool

/-- `analyzeKeyPressPattern`. -/
noncomputable def analyzeKeyPressPattern (now : ℝ) (keypressEvents : List Event) :
    KeyPressResult :=
  if keypressEvents.length < 5 then ⟨false, false⟩
  else
    let timestamps := keypressEvents.map (eventTime now)
    let intervals := (consecPairs timestamps).map fun ab => ab.2 - ab.1
    let avg := intervals.sum / (intervals.length : ℝ)
    let sd := jsStdDev intervals
    ⟨decide (100 < avg) && decide (50 < sd), decide (avg < 50)⟩

structure BehaviorResult where
  isHuman : Bool
  score : ℝ
  reasons : List String

/-- `analyzeBehavior(events)`; `none` models the JS `TypeError` reachable via
`analyzeClickPattern` on an event missing its `data` object. -/
noncomputable def analyzeBehavior (now : ℝ) (pca : Option ℝ) (events : List Event) :
    Option BehaviorResult :=
  if events.length = 0 then some ⟨false, 0, ["没有足够的行为数据进行分析"]⟩
  else
    let mouseEvents := events.filter fun e => e.type == "mousemove"
    if mouseEvents.length < 5 then some ⟨false, 0, ["鼠标移动事件太少"]⟩
    else
      let traj := analyzeMouseTrajectory now pca mouseEvents
      let clickEvents := events.filter fun e => e.type == "click"
      match analyzeClickPattern now clickEvents events with
      | none => none
      | some clickR =>
        let timing := analyzeEventTimeIntervals now events
        let keyEvents := events.filter fun e => e.type == "keypress"
        let keyNat : Option Bool :=
          if 0 < keyEvents.length then some (analyzeKeyPressPattern now keyEvents).isNatural
          else none
        let score : ℝ :=
          (if traj.isNatural then 30 else 0) + (if clickR.isNatural then 25 else 0) +
            (if timing.isNatural then 25 else 0) +
            (match keyNat with | some true => 20 | _ => 0)
        let reasons :=
          (if traj.isNatural then [] else ["鼠标移动轨迹不自然"]) ++
            (if clickR.isNatural then [] else ["点击模式不自然"]) ++
            (if timing.isNatural then [] else ["事件时间间隔不自然"]) ++
            (match keyNat with | some false => ["键盘输入模式不自然"] | _ => [])
        some ⟨decide (50 ≤ score), score, reasons⟩

/-! ## Automation detector (`utils/automation-detector.js`)

`detectAutomation(clientInfo)` destructures `{ userAgent, headers = {},
navigator = {}, window = {} }`.  The `clientInfo` object assembled by
`/api/verify/init` never has `navigator`/`window` keys, so those default to
`{}` — an object that is *truthy*, so the `!navigator`/`!window` early-return
guards of the sub-detectors only ever fire on a missing `userAgent`. -/

/-- A JS string value where the empty string is falsy, as tested by `!s`. -/
def jsStrOpt : Option String → Option String
  | some v => if v = "" then none else some v
  | none => none

/-- Request headers as received by node (names already lower-cased). -/
abbrev Headers := List (String × String)

def getHeader (hs : Headers) (name : String) : Option String :=
  (hs.find? fun kv => kv.1 == name).map Prod.snd

/-- The slice of the client-collector `navigator` object that the detector
reads.  `props` is the set of own-property names (for the `in` checks). -/
structure NavigatorInfo where
  webdriver : Option Bool
  props : List String
  plugins : Option (List String)
  languages : Option (List String)
  language : Option String
  platform : Option String
  hardwareConcurrency : Option ℝ
  permissionsQuery : Bool

/-- Truthiness of `window.chrome.app` / `window.chrome.runtime`. -/
structure ChromeObj where
  app : Bool
  runtime : Bool

/-- The slice of the client-collector `window` object that the detector reads.
`documentCdc = some b` models `window.document` present with
`($cdc_asdjflasutopfhvcZLmcfl_ !== undefined) = b`. -/
structure WindowInfo where
  props : List String
  chrome : Option ChromeObj
  documentCdc : Option Bool
  webGLRenderingContext : Bool

def emptyNavigator : NavigatorInfo := ⟨none, [], none, none, none, none, none, false⟩

def emptyWindow : WindowInfo := ⟨[], none, none, false⟩

/-- Presence (truthiness) of the `browser` and `os` sub-objects of the
`ua-parser-js` result stored in `clientInfo.parsedUserAgent`. -/
structure ParsedUA where
  browser : Bool
  os : Bool

/-- The `clientInfo` record assembled by `/api/verify/init` (verify.js:47-89).
`screenResolution` is the raw `"WxH"` string; `plugins` is modeled as the
list of plugin names. -/
structure ClientInfo where
  ip : Option String
  userAgent : Option String
  parsedUserAgent : Option ParsedUA
  headers : Headers
  fingerprint : Option String
  canvasFingerprint : Option String
  webglFingerprint : Option String
  webglVendor : Option String
  webglRenderer : Option String
  audioFingerprint : Option String
  screenResolution : Option String
  colorDepth : Option ℝ
  pixelRatio : Option ℝ
  timezone : Option String
  timezoneOffset : Option ℝ
  language : Option String
  platform : Option String
  hardwareConcurrency : Option ℝ
  deviceMemory : Option ℝ
  plugins : Option (List String)
  fonts : Option (List String)
  touchSupport : Bool
  maxTouchPoints : ℝ
  cookiesEnabled : Bool
  localStorage : Bool
  sessionStorage : Bool
  indexedDB : Bool
  doNotTrack : Option String
  adBlocker : Bool
  webdriver : Bool
  automationFlags : Option (List String)
  connectionType : Option String
  connectionSpeed : Option String
  navigator : Option NavigatorInfo
  window : Option WindowInfo

def seleniumProps : List String :=
  ["__webdriver_evaluate", "__selenium_evaluate", "__webdriver_script_function",
   "__webdriver_script_func", "__webdriver_script_fn", "__fxdriver_evaluate",
   "__driver_unwrapped", "__webdriver_unwrapped", "__driver_evaluate",
   "__selenium_unwrapped", "__fxdriver_unwrapped", "_Selenium_IDE_Recorder",
   "_selenium", "calledSelenium", "_WEBDRIVER_ELEM_CACHE"]

/-- `detectWebDriver(navigator)`: `navigator.webdriver === true` or one of the
known driver-injected properties present.  (The `!navigator` guard is
unreachable after the destructuring default.) -/
def detectWebDriver (nav : NavigatorInfo) : Bool :=
  nav.webdriver == some true || seleniumProps.any fun p => nav.props.contains p

structure SubDetect where
  detected : Bool
  score : ℝ
  reasons : List String

def seleniumWindowProps : List String :=
  ["SeleniumWebDriverRequest", "_selenium", "selenium", "Selenium",
   "_Selenium_IDE_Recorder", "callSelenium"]

/-- `detectSelenium(userAgent, navigator, window)`. -/
noncomputable def detectSelenium (userAgent : Option String) (win : WindowInfo) :
    SubDetect :=
  match jsStrOpt userAgent with
  | none => ⟨false, 0, []⟩
  | some ua =>
    let uaHit := jsIncludes ua "Selenium" || jsIncludes ua "selenium"
    let winProp := seleniumWindowProps.find? fun p => win.props.contains p
    let cdc := win.documentCdc == some true
    ⟨uaHit || winProp.isSome || cdc,
     (if uaHit then 25 else 0) + (if winProp.isSome then 20 else 0) +
       (if cdc then 25 else 0),
     (if uaHit then ["用户代理中包含Selenium关键词"] else []) ++
       (match winProp with
        | some p => ["检测到Selenium窗口属性: " ++ p]
        | none => []) ++
       (if cdc then ["检测到Chrome WebDriver特征"] else [])⟩

/-- `detectPuppeteer(userAgent, navigator, window)`. -/
noncomputable def detectPuppeteer (userAgent : Option String) (nav : NavigatorInfo)
    (win : WindowInfo) : SubDetect :=
  match jsStrOpt userAgent with
  | none => ⟨false, 0, []⟩
  | some ua =>
    let headless := jsIncludes ua "HeadlessChrome"
    let noPlugins := nav.plugins == some ([] : List String)
    let chromeIncomplete :=
      match win.chrome with
      | some c => !c.app || !c.runtime
      | none => false
    let noLangs := nav.languages == some ([] : List String)
    let score : ℝ := (if headless then 30 else 0) + (if noPlugins then 10 else 0) +
      (if chromeIncomplete then 15 else 0) + (if noLangs then 10 else 0)
    ⟨headless || decide (30 ≤ score), score,
     (if headless then ["用户代理中包含HeadlessChrome"] else []) ++
       (if noPlugins then ["浏览器插件数量为0"] else []) ++
       (if chromeIncomplete then ["Chrome对象不完整"] else []) ++
       (if noLangs then ["语言列表为空"] else [])⟩

/-- `detectPlaywright(userAgent, navigator, window)`. -/
noncomputable def detectPlaywright (userAgent : Option String) (nav : NavigatorInfo)
    (win : WindowInfo) : SubDetect :=
  match jsStrOpt userAgent with
  | none => ⟨false, 0, []⟩
  | some ua =>
    let permissions := nav.permissionsQuery
    let uaHit := jsIncludes ua "Playwright"
    let webgl := win.webGLRenderingContext
    let score : ℝ := (if permissions then 10 else 0) + (if uaHit then 30 else 0) +
      (if webgl then 5 else 0)
    ⟨uaHit || decide (30 ≤ score), score,
     if uaHit then ["用户代理中包含Playwright"] else []⟩

/-- `getPlatformOS(platform)`. -/
def getPlatformOS (platform : String) : Option String :=
  let p := lowerStr platform
  if jsIncludes p "win" then some "Windows"
  else if jsIncludes p "mac" then some "macOS"
  else if jsIncludes p "linux" || jsIncludes p "x11" then some "Linux"
  else if jsIncludes p "android" then some "Android"
  else if jsIncludes p "iphone" || jsIncludes p "ipad" then some "iOS"
  else none

/-- Browser/OS names reported by one of the two external user-agent parsers
(`bowser` / `device-detector-js`); `none` models a missing sub-object or name. -/
structure UAParseInfo where
  name : Option String
  osName : Option String

/-- Joint outcome of `Bowser.parse(userAgent)` and `deviceDetector.parse(userAgent)`
(both external libraries); `none` models the `catch` branch. -/
structure ParseOracle where
  outcome : Option (UAParseInfo × UAParseInfo)

/-- `detectBrowserInconsistency(userAgent, headers, navigator)`. -/
noncomputable def detectBrowserInconsistency (userAgent : Option String)
    (headers : Headers) (nav : NavigatorInfo) (oracle : ParseOracle) : SubDetect :=
  match jsStrOpt userAgent with
  | none => ⟨false, 0, []⟩
  | some _ =>
    match oracle.outcome with
    | none => ⟨false, 5, ["用户代理解析错误"]⟩
    | some (bowser, device) =>
      let browserMismatch :=
        match bowser.name, device.name with
        | some b, some d => decide (b ≠ d)
        | _, _ => false
      let osMismatch :=
        match bowser.osName, device.osName with
        | some b, some d => decide (b ≠ d)
        | _, _ => false
      let platformMismatch :=
        match jsStrOpt nav.platform with
        | none => false
        | some plat =>
          match bowser.osName, getPlatformOS plat with
          | some osn, some pos => decide (lowerStr osn ≠ lowerStr pos)
          | _, _ => false
      let langMismatch :=
        match jsStrOpt (getHeader headers "accept-language"), jsStrOpt nav.language with
        | some al, some nl =>
          let headerLang :=
            (splitCh '-' (trimStr ⟨(splitCh ',' al.data).headD []⟩).data).headD []
          let navLang := (splitCh '-' nl.data).headD []
          decide (headerLang ≠ navLang)
        | _, _ => false
      ⟨browserMismatch || osMismatch || platformMismatch || langMismatch,
       (if browserMismatch then 15 else 0) + (if osMismatch then 15 else 0) +
         (if platformMismatch then 20 else 0) + (if langMismatch then 10 else 0),
       (if browserMismatch then ["浏览器名称不一致"] else []) ++
         (if osMismatch then ["操作系统信息不一致"] else []) ++
         (if platformMismatch then ["平台与用户代理操作系统不一致"] else []) ++
         (if langMismatch then ["Accept-Language与navigator.language不一致"] else [])⟩

/-- JS `Number(s)` restricted to the shapes that occur in `"WxH"` resolution
strings: the empty string is `0`, digit-only strings are parsed, and anything
else is `NaN` (`none`).  Every comparison against `NaN` is false. -/
def jsNumberNat (s : String) : Option ℕ :=
  if s.data = [] then some 0
  else if s.data.all Char.isDigit then
    some (s.data.foldl (fun n c => 10 * n + (c.toNat - 48)) 0)
  else none

/-- `screenResolution.split('x').map(Number)` destructured into `[width, height]`
(`none` per slot models `NaN`, including a missing slot, i.e. `undefined`). -/
def parseResolution (s : String) : Option ℕ × Option ℕ :=
  let parts := (splitCh 'x' s.data).map fun l => jsNumberNat ⟨l⟩
  (parts.headD none, (parts.drop 1).headD none)

def commonAutomatedSizes : List String :=
  ["800x600", "1024x768", "1280x800", "1366x768", "1920x1080"]

/-- `detectAbnormalScreenSize(clientInfo)`: a known automation default size, an
extreme aspect ratio (`width/height < 1 || > 3`; with `height = 0` JS produces
`+Infinity`, which is `> 3`, unless `width = 0` gives `NaN`), or a very small
screen.  `NaN` operands make the numeric tests false. -/
noncomputable def detectAbnormalScreenSize (info : ClientInfo) : Bool :=
  match jsStrOpt info.screenResolution with
  | none => false
  | some s =>
    commonAutomatedSizes.contains s ||
      (match parseResolution s with
       | (some w, some h) =>
         (if h = 0 then decide (w ≠ 0)
          else decide ((w : ℝ) / (h : ℝ) < 1 ∨ 3 < (w : ℝ) / (h : ℝ))) ||
           decide (w < 500 ∨ h < 500)
       | (some w, none) => decide (w < 500)
       | (none, some h) => decide (h < 500)
       | (none, none) => false)

def commonAutomatedTimezones : List String := ["UTC", "GMT", "Etc/GMT", "Etc/UTC"]

/-- `detectAbnormalTimezone(clientInfo)`. -/
def detectAbnormalTimezone (info : ClientInfo) : Bool :=
  match jsStrOpt info.timezone with
  | none => false
  | some tz => commonAutomatedTimezones.contains tz

/-- `detectAbnormalPluginCount(navigator)` (an empty plugins array is truthy
in JS, so it passes the `!navigator.plugins` guard and reports abnormal). -/
def detectAbnormalPluginCount (nav : NavigatorInfo) : Bool :=
  match nav.plugins with
  | none => false
  | some l => decide (l.length = 0 ∨ l.length < 2)

/-- `detectAbnormalHardwareConcurrency(navigator)`. -/
noncomputable def detectAbnormalHardwareConcurrency (nav : NavigatorInfo) : Bool :=
  match nav.hardwareConcurrency with
  | none => false
  | some h => decide (h ≤ 2)

/-- `detectAbnormalLanguage(navigator, headers)`. -/
def detectAbnormalLanguage (nav : NavigatorInfo) (headers : Headers) : Bool :=
  (nav.languages == some ([] : List String)) ||
    (jsStrOpt (getHeader headers "accept-language")).isNone

/-- `checkUserAgentConsistency(userAgent, headers).consistent`. -/
def checkUserAgentConsistency (userAgent : Option String) (headers : Headers) : Bool :=
  match jsStrOpt userAgent with
  | none => true
  | some ua =>
    match jsStrOpt (getHeader headers "user-agent") with
    | some h => decide (h = ua)
    | none => true

structure AutomationResult where
  isAutomated : Bool
  automationScore : ℝ
  detectedTools : List String
  reasons : List String

/-- The total `automationScore` accumulated by `detectAutomation` before the
final `Math.min(·, 100)` cap. -/
noncomputable def detectAutomationRawScore (oracle : ParseOracle) (info : ClientInfo) :
    ℝ :=
  let nav := info.navigator.getD emptyNavigator
  let win := info.window.getD emptyWindow
  (if detectWebDriver nav then 30 else 0) +
    (if (detectSelenium info.userAgent win).detected
     then (detectSelenium info.userAgent win).score else 0) +
    (if (detectPuppeteer info.userAgent nav win).detected
     then (detectPuppeteer info.userAgent nav win).score else 0) +
    (if (detectPlaywright info.userAgent nav win).detected
     then (detectPlaywright info.userAgent nav win).score else 0) +
    (if (detectBrowserInconsistency info.userAgent info.headers nav oracle).detected
     then (detectBrowserInconsistency info.userAgent info.headers nav oracle).score else 0) +
    (if detectAbnormalScreenSize info then 10 else 0) +
    (if detectAbnormalTimezone info then 10 else 0) +
    (if detectAbnormalPluginCount nav then 15 else 0) +
    (if detectAbnormalHardwareConcurrency nav then 10 else 0) +
    (if detectAbnormalLanguage nav info.headers then 5 else 0) +
    (if !checkUserAgentConsistency info.userAgent info.headers then 20 else 0)

/-- `detectAutomation(clientInfo)`: additive scoring over all sub-checks, tools
and reasons accumulated in program order, `Unknown Automation` fallback at the
50-point threshold, and the final score capped at 100. -/
noncomputable def detectAutomation (oracle : ParseOracle) (info : ClientInfo) :
    AutomationResult :=
  let nav := info.navigator.getD emptyNavigator
  let win := info.window.getD emptyWindow
  let wd := detectWebDriver nav
  let sel := detectSelenium info.userAgent win
  let pup := detectPuppeteer info.userAgent nav win
  let play := detectPlaywright info.userAgent nav win
  let incons := detectBrowserInconsistency info.userAgent info.headers nav oracle
  let screen := detectAbnormalScreenSize info
  let tz := detectAbnormalTimezone info
  let plug := detectAbnormalPluginCount nav
  let hw := detectAbnormalHardwareConcurrency nav
  let lang := detectAbnormalLanguage nav info.headers
  let uaCons := checkUserAgentConsistency info.userAgent info.headers
  let score : ℝ := detectAutomationRawScore oracle info
  let autoBase := wd || sel.detected || pup.detected || play.detected
  ⟨autoBase || decide (50 ≤ score),
   min score 100,
   (if wd then ["WebDriver"] else []) ++ (if sel.detected then ["Selenium"] else []) ++
     (if pup.detected then ["Puppeteer"] else []) ++
     (if play.detected then ["Playwright"] else []) ++
     (if !autoBase && decide (50 ≤ score) then ["Unknown Automation"] else []),
   (if wd then ["检测到WebDriver API"] else []) ++
     (if sel.detected then sel.reasons else []) ++
     (if pup.detected then pup.reasons else []) ++
     (if play.detected then play.reasons else []) ++
     (if incons.detected then incons.reasons else []) ++
     (if screen then ["异常的屏幕尺寸"] else []) ++
     (if tz then ["异常的时区设置"] else []) ++
     (if plug then ["浏览器插件数量异常"] else []) ++
     (if hw then ["硬件并发数异常"] else []) ++
     (if lang then ["语言设置异常"] else []) ++
     (if !uaCons then ["用户代理不一致"] else [])⟩

/-! ## Fingerprint analyzer (`utils/fingerprint-analyzer.js`) -/

/-- A JS number value where `0` is falsy, as produced by `v || null` / `v || ''`. -/
noncomputable def jsNumOpt : Option ℝ → Option ℝ
  | some v => if v = 0 then none else some v
  | none => none

/-- The fingerprint component record built by `extractFingerprintComponents`.
String fields defaulted with `|| ''` are plain strings; fields defaulted with
`|| null` are options. -/
structure FingerprintComponents where
  userAgent : String
  language : String
  colorDepth : Option ℝ
  screenResolution : String
  timezone : String
  timezoneOffset : Option ℝ
  platform : String
  plugins : Option (List String)
  canvasFingerprint : Option String
  webglFingerprint : Option String
  webglVendor : String
  webglRenderer : String
  audioFingerprint : Option String
  fonts : List String
  touchSupport : Bool
  maxTouchPoints : ℝ
  hardwareConcurrency : Option ℝ
  deviceMemory : Option ℝ
  pixelRatio : Option ℝ

/-- `extractFingerprintComponents(clientInfo)` (`x || ''` collapses falsy
values to the empty string / `x || null` to null, which `jsStrOpt`/`jsNumOpt`
model). -/
noncomputable def extractFingerprintComponents (ci : ClientInfo) : FingerprintComponents :=
  { userAgent := (jsStrOpt ci.userAgent).getD ""
    language := (jsStrOpt ci.language).getD ""
    colorDepth := jsNumOpt ci.colorDepth
    screenResolution := (jsStrOpt ci.screenResolution).getD ""
    timezone := (jsStrOpt ci.timezone).getD ""
    timezoneOffset := jsNumOpt ci.timezoneOffset
    platform := (jsStrOpt ci.platform).getD ""
    plugins := ci.plugins
    canvasFingerprint := jsStrOpt ci.canvasFingerprint
    webglFingerprint := jsStrOpt ci.webglFingerprint
    webglVendor := (jsStrOpt ci.webglVendor).getD ""
    webglRenderer := (jsStrOpt ci.webglRenderer).getD ""
    audioFingerprint := jsStrOpt ci.audioFingerprint
    fonts := ci.fonts.getD []
    touchSupport := ci.touchSupport
    maxTouchPoints := ci.maxTouchPoints
    hardwareConcurrency := jsNumOpt ci.hardwareConcurrency
    deviceMemory := jsNumOpt ci.deviceMemory
    pixelRatio := jsNumOpt ci.pixelRatio }

/-- The JSON value tree produced by `JSON.stringify`-style serialization. -/
inductive Json where
  | str : String → Json
  | num : ℝ → Json
  | bool : Bool → Json
  | null : Json
  | arr : List Json → Json
  | obj : List (String × Json) → Json

/-- `generateFingerprintHash(components)`, in the source
`CryptoJS.SHA256(JSON.stringify(components)).toString()`.  `JSON.stringify`
is modeled by the JSON value tree of the component record (member order is
the record's key insertion order).  SHA-256 comes from the external
`crypto-js` library; the spec treats the digest as injective at the interface
(determinism mandatory, collision testing out of scope), so the digest is
represented by the serialized value itself. -/
noncomputable def generateFingerprintHash (c : FingerprintComponents) : Json :=
  .obj
    [("userAgent", .str c.userAgent),
     ("language", .str c.language),
     ("colorDepth", match c.colorDepth with | some v => .num v | none => .str ""),
     ("screenResolution", .str c.screenResolution),
     ("timezone", .str c.timezone),
     ("timezoneOffset", match c.timezoneOffset with | some v => .num v | none => .null),
     ("platform", .str c.platform),
     ("plugins", match c.plugins with | some l => .arr (l.map .str) | none => .str ""),
     ("canvasFingerprint", match c.canvasFingerprint with | some s => .str s | none => .null),
     ("webglFingerprint", match c.webglFingerprint with | some s => .str s | none => .null),
     ("webglVendor", .str c.webglVendor),
     ("webglRenderer", .str c.webglRenderer),
     ("audioFingerprint", match c.audioFingerprint with | some s => .str s | none => .null),
     ("fonts", .arr (c.fonts.map .str)),
     ("touchSupport", .bool c.touchSupport),
     ("maxTouchPoints", .num c.maxTouchPoints),
     ("hardwareConcurrency", match c.hardwareConcurrency with | some v => .num v | none => .null),
     ("deviceMemory", match c.deviceMemory with | some v => .num v | none => .null),
     ("pixelRatio", match c.pixelRatio with | some v => .num v | none => .null)]

/-- Score delta and anomaly list of one per-component check. -/
structure FpDelta where
  score : ℝ
  anomalies : List String

def knownAutomatedCanvasFingerprints : List String :=
  ["0000000000000000000000000000000000000000",
   "f995d7d9444e4ee6a1f4063baae68d9d1a12b5f0"]

/-- `analyzeCanvasFingerprint` (only called with a truthy fingerprint). -/
noncomputable def analyzeCanvasFingerprint (cf : String) : FpDelta :=
  let lenPart : FpDelta :=
    if cf.length < 50 then ⟨-10, ["Canvas指纹长度异常"]⟩ else ⟨10, []⟩
  if knownAutomatedCanvasFingerprints.contains cf then
    ⟨lenPart.score - 20, lenPart.anomalies ++ ["检测到已知的自动化工具Canvas指纹"]⟩
  else lenPart

def automatedWebGLVendors : List String :=
  ["Brian Paul", "Mesa", "Google Inc.", "Google SwiftShader"]

def automatedWebGLRenderers : List String :=
  ["Mesa OffScreen", "Google SwiftShader", "llvmpipe", "Software Rasterizer", "ANGLE"]

/-- `analyzeWebGLFingerprint` (only called with a truthy fingerprint; vendor
and renderer are the `|| ''`-defaulted component strings). -/
noncomputable def analyzeWebGLFingerprint (wf vendor renderer : String) : FpDelta :=
  let lenPart : FpDelta :=
    if wf.length < 50 then ⟨-10, ["WebGL指纹长度异常"]⟩ else ⟨10, []⟩
  if vendor ≠ "" ∧ renderer ≠ "" then
    let vHit := automatedWebGLVendors.any fun v => jsIncludes vendor v
    let rHit := automatedWebGLRenderers.any fun r => jsIncludes renderer r
    ⟨lenPart.score + (if vHit then -15 else 0) + (if rHit then -15 else 0),
     lenPart.anomalies ++ (if vHit then ["检测到可疑的WebGL供应商: " ++ vendor] else []) ++
       (if rHit then ["检测到可疑的WebGL渲染器: " ++ renderer] else [])⟩
  else ⟨lenPart.score - 10, lenPart.anomalies ++ ["缺少WebGL供应商或渲染器信息"]⟩

def knownAutomatedAudioFingerprints : List String := ["0000000000", "1234567890"]

/-- `analyzeAudioFingerprint` (only called with a truthy fingerprint). -/
noncomputable def analyzeAudioFingerprint (af : String) : FpDelta :=
  let lenPart : FpDelta :=
    if af.length < 10 then ⟨-5, ["音频指纹长度异常"]⟩ else ⟨5, []⟩
  if knownAutomatedAudioFingerprints.contains af then
    ⟨lenPart.score - 10, lenPart.anomalies ++ ["检测到已知的自动化工具音频指纹"]⟩
  else lenPart

def commonFonts : List String :=
  ["Arial", "Times New Roman", "Courier New", "Verdana", "Georgia"]

/-- `analyzeFonts` (only called with a non-empty list).  A list of exactly 5
fonts falls through all three count branches with no delta. -/
noncomputable def analyzeFonts (fonts : List String) : FpDelta :=
  let cnt : FpDelta :=
    if fonts.length < 5 then ⟨-10, ["字体数量异常少"]⟩
    else if 5 < fonts.length ∧ fonts.length < 20 then ⟨5, []⟩
    else if 20 ≤ fonts.length then ⟨10, []⟩
    else ⟨0, []⟩
  let common := commonFonts.any fun c => fonts.any fun f => jsIncludes (lowerStr f) (lowerStr c)
  if common then ⟨cnt.score + 5, cnt.anomalies⟩
  else ⟨cnt.score - 5, cnt.anomalies ++ ["缺少常见字体"]⟩

/-- `analyzePlugins` (only called with a truthy plugin value, modeled as the
plugin-name list). -/
noncomputable def analyzePlugins (pluginArray : List String) : FpDelta :=
  if pluginArray.length = 0 then ⟨-10, ["没有浏览器插件"]⟩
  else if pluginArray.length < 3 then ⟨-5, ["插件数量异常少"]⟩
  else ⟨5, []⟩

/-- `analyzeScreenInfo` (only called with a truthy resolution string).  `NaN`
width/height (malformed string) make each comparison false. -/
noncomputable def analyzeScreenInfo (s : String) (colorDepth pixelRatio : Option ℝ) :
    FpDelta :=
  let sizePart : FpDelta :=
    match parseResolution s with
    | (some w, some h) =>
      if w < 320 ∨ h < 240 then ⟨-10, ["屏幕尺寸异常小"]⟩ else ⟨5, []⟩
    | (some w, none) => if w < 320 then ⟨-10, ["屏幕尺寸异常小"]⟩ else ⟨0, []⟩
    | (none, some h) => if h < 240 then ⟨-10, ["屏幕尺寸异常小"]⟩ else ⟨0, []⟩
    | (none, none) => ⟨0, []⟩
  let cdPart : FpDelta :=
    match colorDepth with
    | none => ⟨0, ["缺少色彩深度信息"]⟩
    | some cd => if cd < 24 then ⟨-5, ["色彩深度异常低"]⟩ else ⟨5, []⟩
  let prPart : FpDelta :=
    match pixelRatio with
    | none => ⟨0, ["缺少像素比信息"]⟩
    | some pr => if pr < 1 ∨ 5 < pr then ⟨-5, ["像素比异常"]⟩ else ⟨5, []⟩
  ⟨sizePart.score + cdPart.score + prPart.score,
   sizePart.anomalies ++ cdPart.anomalies ++ prPart.anomalies⟩

/-- `analyzeHardwareInfo`. -/
noncomputable def analyzeHardwareInfo (hardwareConcurrency deviceMemory : Option ℝ) :
    FpDelta :=
  let hcPart : FpDelta :=
    match hardwareConcurrency with
    | none => ⟨0, ["缺少硬件并发数信息"]⟩
    | some hc =>
      if hc < 2 then ⟨-5, ["硬件并发数异常低"]⟩
      else if 2 ≤ hc ∧ hc ≤ 16 then ⟨5, []⟩
      else ⟨-5, ["硬件并发数异常高"]⟩
  let dmPart : FpDelta :=
    match deviceMemory with
    | none => ⟨0, ["缺少设备内存信息"]⟩
    | some dm =>
      if dm < 2 then ⟨-5, ["设备内存异常低"]⟩
      else if 2 ≤ dm ∧ dm ≤ 32 then ⟨5, []⟩
      else ⟨-5, ["设备内存异常高"]⟩
  ⟨hcPart.score + dmPart.score, hcPart.anomalies ++ dmPart.anomalies⟩

/-- JS `String.prototype.startsWith`. -/
def jsStartsWith (s pre : String) : Bool := decide (pre.data <+: s.data)

/-- `getExpectedTimezoneOffset(timezone)` (minutes; `null` when unknown). -/
def getExpectedTimezoneOffset (timezone : String) : Option ℝ :=
  if timezone = "America/New_York" then some (-300)
  else if timezone = "America/Chicago" then some (-360)
  else if timezone = "America/Denver" then some (-420)
  else if timezone = "America/Los_Angeles" then some (-480)
  else if timezone = "Europe/London" then some 0
  else if timezone = "Europe/Berlin" then some 60
  else if timezone = "Europe/Moscow" then some 180
  else if timezone = "Asia/Tokyo" then some 540
  else if timezone = "Asia/Shanghai" then some 480
  else if timezone = "Australia/Sydney" then some 600
  else none

/-- `analyzeTimezone` (only called with a truthy timezone). -/
noncomputable def analyzeTimezone (tz : String) (timezoneOffset : Option ℝ) : FpDelta :=
  let genericPart : FpDelta :=
    if tz = "UTC" ∨ tz = "GMT" ∨ jsStartsWith tz "Etc/GMT" then ⟨-5, ["使用通用时区"]⟩
    else ⟨5, []⟩
  let offsetPart : FpDelta :=
    match timezoneOffset with
    | none => ⟨0, ["缺少时区偏移量信息"]⟩
    | some off =>
      match getExpectedTimezoneOffset tz with
      | some expected =>
        if 60 < |off - expected| then ⟨-10, ["时区与偏移量不匹配"]⟩ else ⟨5, []⟩
      | none => ⟨5, []⟩
  ⟨genericPart.score + offsetPart.score, genericPart.anomalies ++ offsetPart.anomalies⟩

/-- `analyzeTouchSupport` (`touchSupport` is `|| false`-defaulted, so the
`typeof undefined` guards never fire). -/
noncomputable def analyzeTouchSupport (touchSupport : Bool) (maxTouchPoints : ℝ) :
    FpDelta :=
  if touchSupport ∧ maxTouchPoints = 0 then ⟨-5, ["触摸支持与最大触摸点数不一致"]⟩
  else if ¬touchSupport ∧ 0 < maxTouchPoints then ⟨-5, ["触摸支持与最大触摸点数不一致"]⟩
  else ⟨5, []⟩

/-- One component block of `analyzeFingerprint`: its score delta, its anomaly
pushes, and its reason pushes (in program order). -/
structure FpStep where
  score : ℝ
  anomalies : List String
  reasons : List String

/-- Lift a present-component check: reasons gain `tag` iff it found anomalies. -/
def FpStep.ofDelta (d : FpDelta) (tag : String) : FpStep :=
  ⟨d.score, d.anomalies, if d.anomalies.length > 0 then [tag] else []⟩

structure FingerprintResult where
  score : ℝ
  reasons : List String
  fingerprint : Option Json
  fingerprintComponents : Option FingerprintComponents
  anomalies : List String

/-- `analyzeFingerprint(clientInfo)`: extract components, hash them, run the
per-component checks, clamp `50 + Σ deltas` to `[0, 100]`. -/
noncomputable def analyzeFingerprint (info : Option ClientInfo) : FingerprintResult :=
  match info with
  | none => ⟨0, ["缺少客户端信息"], none, none, []⟩
  | some ci =>
    let c := extractFingerprintComponents ci
    let canvasStep : FpStep :=
      match c.canvasFingerprint with
      | some cf => .ofDelta (analyzeCanvasFingerprint cf) "Canvas指纹异常"
      | none => ⟨-15, ["缺少Canvas指纹"], ["缺少Canvas指纹"]⟩
    let webglStep : FpStep :=
      match c.webglFingerprint with
      | some wf => .ofDelta (analyzeWebGLFingerprint wf c.webglVendor c.webglRenderer) "WebGL指纹异常"
      | none => ⟨-15, ["缺少WebGL指纹"], ["缺少WebGL指纹"]⟩
    let audioStep : FpStep :=
      match c.audioFingerprint with
      | some af => .ofDelta (analyzeAudioFingerprint af) "音频指纹异常"
      | none => ⟨0, [], []⟩
    let fontsStep : FpStep :=
      if c.fonts.length > 0 then .ofDelta (analyzeFonts c.fonts) "字体列表异常"
      else ⟨-10, ["缺少字体信息"], []⟩
    let pluginsStep : FpStep :=
      match c.plugins with
      | some l => .ofDelta (analyzePlugins l) "插件列表异常"
      | none => ⟨-10, ["缺少插件信息"], []⟩
    let screenStep : FpStep :=
      if c.screenResolution ≠ "" then
        .ofDelta (analyzeScreenInfo c.screenResolution c.colorDepth c.pixelRatio) "屏幕信息异常"
      else ⟨0, [], []⟩
    let hardwareStep : FpStep :=
      if c.hardwareConcurrency.isSome ∨ c.deviceMemory.isSome then
        .ofDelta (analyzeHardwareInfo c.hardwareConcurrency c.deviceMemory) "硬件信息异常"
      else ⟨0, [], []⟩
    let timezoneStep : FpStep :=
      if c.timezone ≠ "" then
        .ofDelta (analyzeTimezone c.timezone c.timezoneOffset) "时区信息异常"
      else ⟨0, [], []⟩
    let touchStep : FpStep :=
      .ofDelta (analyzeTouchSupport c.touchSupport c.maxTouchPoints) "触摸支持信息异常"
    let steps := [canvasStep, webglStep, audioStep, fontsStep, pluginsStep,
      screenStep, hardwareStep, timezoneStep, touchStep]
    ⟨jsClamp ((steps.map FpStep.score).sum + 50),
     (steps.map FpStep.reasons).flatten,
     some (generateFingerprintHash c),
     some c,
     (steps.map FpStep.anomalies).flatten⟩

/-! ## Network analyzer (`utils/network-analyzer.js`)

`geoip-lite` and the `ipaddr.js` range checks are external lookups; their
outcomes enter through `NetworkEnv`. -/

structure Cipher where
  name : String
  version : String

/-- The slice of the Express request object read by the routes and the network
analyzer. -/
structure Req where
  headers : Headers
  connectionRemoteAddress : Option String
  socketRemoteAddress : Option String
  cipher : Option Cipher

/-- `getClientIp(req)`: `x-forwarded-for` first entry (trimmed), then
`x-real-ip`, then the connection/socket remote address. -/
def getClientIp (req : Req) : Option String :=
  match jsStrOpt (getHeader req.headers "x-forwarded-for") with
  | some ff => some (trimStr ⟨(splitCh ',' ff.data).headD []⟩)
  | none =>
    match jsStrOpt (getHeader req.headers "x-real-ip") with
    | some ri => some ri
    | none =>
      match jsStrOpt req.connectionRemoteAddress with
      | some ra => some ra
      | none => jsStrOpt req.socketRemoteAddress

structure GeoData where
  country : String

/-- External lookup outcomes for one request: `isPrivateIP(ip)` (via
`ipaddr.js`; parse failures yield `false`), `geoip.lookup(ip)`, and the
awaited `checkDatacenterIP(ip)` / `checkVPN(ip)` range checks (`none` models
a rejected promise, swallowed by the `catch` with no effect). -/
structure NetworkEnv where
  isPrivate : Bool
  geo : Option GeoData
  datacenter : Option Bool
  vpn : Option Bool

/-- `getExpectedTimezones(countryCode)`. -/
def getExpectedTimezones (countryCode : String) : List String :=
  if countryCode = "US" then ["America/"]
  else if countryCode = "CA" then ["America/"]
  else if countryCode = "GB" then ["Europe/London"]
  else if countryCode = "DE" then ["Europe/Berlin"]
  else if countryCode = "FR" then ["Europe/Paris"]
  else if countryCode = "JP" then ["Asia/Tokyo"]
  else if countryCode = "CN" then ["Asia/Shanghai", "Asia/Chongqing", "Asia/Harbin", "Asia/Urumqi"]
  else if countryCode = "IN" then ["Asia/Kolkata"]
  else if countryCode = "AU" then ["Australia/"]
  else if countryCode = "RU" then ["Europe/Moscow", "Asia/"]
  else []

/-- `checkIpTimezoneMatch(geoData, timezone)` (callers ensure both truthy). -/
def checkIpTimezoneMatch (geo : GeoData) (timezone : String) : Bool :=
  let expected := getExpectedTimezones geo.country
  if expected.isEmpty then true
  else expected.any fun tz => jsIncludes timezone tz

/-- `getExpectedLanguages(countryCode)`. -/
def getExpectedLanguages (countryCode : String) : List String :=
  if countryCode = "US" then ["en"]
  else if countryCode = "CA" then ["en", "fr"]
  else if countryCode = "GB" then ["en"]
  else if countryCode = "DE" then ["de"]
  else if countryCode = "FR" then ["fr"]
  else if countryCode = "JP" then ["ja"]
  else if countryCode = "CN" then ["zh"]
  else if countryCode = "IN" then ["hi", "en"]
  else if countryCode = "AU" then ["en"]
  else if countryCode = "RU" then ["ru"]
  else []

/-- `checkIpLanguageMatch(geoData, language)`. -/
def checkIpLanguageMatch (geo : GeoData) (language : String) : Bool :=
  let expected := getExpectedLanguages geo.country
  if expected.isEmpty then true
  else expected.contains (lowerStr ⟨(splitCh '-' language.data).headD []⟩)

def proxyHeadersList : List String :=
  ["via", "forwarded", "x-forwarded-for", "x-forwarded-host", "x-forwarded-proto",
   "x-real-ip", "proxy-connection", "proxy-authenticate", "x-proxy-id",
   "proxy-authorization"]

structure ProxyCheck where
  detected : Bool
  reasons : List String

/-- `checkProxyHeaders(headers)`. -/
def checkProxyHeaders (headers : Headers) : ProxyCheck :=
  let hits := proxyHeadersList.filter fun h => (jsStrOpt (getHeader headers h)).isSome
  let cf := (jsStrOpt (getHeader headers "cf-connecting-ip")).isSome ||
    (jsStrOpt (getHeader headers "cf-ipcountry")).isSome
  ⟨decide (0 < hits.length) || cf,
   (hits.map fun h => "存在" ++ h ++ "请求头") ++
     (if cf then ["检测到Cloudflare代理"] else [])⟩

structure ConsistencyCheck where
  consistent : Bool
  reasons : List String

/-- `checkHeaderConsistency(headers)`.  (The third check in the source guards
on `accept-language` being present and then requires it absent, so it can
never fire.) -/
def checkHeaderConsistency (headers : Headers) : ConsistencyCheck :=
  let accept := jsStrOpt (getHeader headers "accept")
  let acceptLanguage := jsStrOpt (getHeader headers "accept-language")
  let ua := jsStrOpt (getHeader headers "user-agent")
  let uaBrowser := fun (u : String) =>
    jsIncludes (lowerStr u) "chrome" || jsIncludes (lowerStr u) "firefox" ||
      jsIncludes (lowerStr u) "safari"
  let c1 :=
    match accept, acceptLanguage with
    | some a, some _ => jsIncludes a "application/json" && !jsIncludes a "text/html"
    | _, _ => false
  let c2 :=
    match ua, accept with
    | some u, some a => uaBrowser u && !jsIncludes a "text/html"
    | _, _ => false
  ⟨!(c1 || c2),
   (if c1 then ["Accept头与浏览器不一致"] else []) ++
     (if c2 then ["User-Agent与Accept头不一致"] else [])⟩

def insecureCiphers : List String :=
  ["TLS_RSA_WITH_RC4_128_SHA", "TLS_RSA_WITH_RC4_128_MD5", "TLS_RSA_WITH_DES_CBC_SHA",
   "TLS_RSA_EXPORT_WITH_RC4_40_MD5", "TLS_RSA_EXPORT_WITH_DES40_CBC_SHA"]

/-- `checkTLSFingerprint(cipher)`. -/
def checkTLSFingerprint (cipher : Cipher) : List String :=
  (if insecureCiphers.contains cipher.name then ["使用不安全的加密套件"] else []) ++
    (if cipher.version = "TLSv1" ∨ cipher.version = "SSLv3"
     then ["使用过时的TLS/SSL版本"] else [])

structure NetworkResult where
  score : ℝ
  reasons : List String
  ipInfo : Option GeoData
  proxied : Bool
  vpnDetected : Bool
  datacenterIP : Bool
  ipTimezoneMatch : Bool

/-- `analyzeNetwork(clientInfo, req)`: early exits for a missing or private
IP; otherwise base 50 plus geo/proxy/datacenter/VPN/header/TLS deltas, clamped
to `[0, 100]`. -/
noncomputable def analyzeNetwork (env : NetworkEnv) (ci : ClientInfo) (req : Req) :
    NetworkResult :=
  match jsStrOpt (getClientIp req) with
  | none => ⟨0, ["无法获取IP地址"], none, false, false, false, true⟩
  | some _ =>
    if env.isPrivate then ⟨10, ["使用私有IP地址"], none, false, false, false, true⟩
    else
      let geoPart : ℝ × List String × Bool :=
        match env.geo with
        | none => ⟨-10, ["无法获取IP地理位置信息"], true⟩
        | some g =>
          let tzPart : ℝ × List String × Bool :=
            match jsStrOpt ci.timezone with
            | some tz =>
              if checkIpTimezoneMatch g tz then ⟨20, [], true⟩
              else ⟨-20, ["IP地址与时区不匹配"], false⟩
            | none => ⟨0, [], true⟩
          let langPart : ℝ × List String :=
            match jsStrOpt ci.language with
            | some lg =>
              if checkIpLanguageMatch g lg then ⟨10, []⟩ else ⟨-10, ["IP地址与语言不匹配"]⟩
            | none => ⟨0, []⟩
          ⟨tzPart.1 + langPart.1, tzPart.2.1 ++ langPart.2, tzPart.2.2⟩
      let pc := checkProxyHeaders req.headers
      let proxyPart : ℝ × List String :=
        if pc.detected then
          ⟨-30, ["检测到代理特征: " ++ String.intercalate ", " pc.reasons]⟩
        else ⟨0, []⟩
      let dcPart : ℝ × List String :=
        match env.datacenter with
        | some true => ⟨-40, ["检测到数据中心IP地址"]⟩
        | _ => ⟨0, []⟩
      let vpnPart : ℝ × List String :=
        match env.vpn with
        | some true => ⟨-20, ["检测到VPN使用"]⟩
        | _ => ⟨0, []⟩
      let hc := checkHeaderConsistency req.headers
      let hcPart : ℝ × List String :=
        if hc.consistent then ⟨15, []⟩
        else ⟨-15, ["请求头不一致: " ++ String.intercalate ", " hc.reasons]⟩
      let tlsPart : ℝ × List String :=
        match req.cipher with
        | none => ⟨0, []⟩
        | some ciph =>
          let anomalies := checkTLSFingerprint ciph
          if anomalies.length > 0 then
            ⟨-10, ["TLS指纹异常: " ++ String.intercalate ", " anomalies]⟩
          else ⟨10, []⟩
      ⟨jsClamp (geoPart.1 + proxyPart.1 + dcPart.1 + vpnPart.1 + hcPart.1 + tlsPart.1 + 50),
       geoPart.2.1 ++ proxyPart.2 ++ dcPart.2 ++ vpnPart.2 ++ hcPart.2 ++ tlsPart.2,
       env.geo,
       pc.detected,
       env.vpn == some true,
       env.datacenter == some true,
       geoPart.2.2⟩

/-! ## Session lifecycle (`src/api/verify.js`)

Sessions live in an in-memory map; the per-session operations are modeled as
functions of the session value, with `Option Session` wrappers for the
not-found case.  Each route's `Date.now()` calls are modeled by one `now`
argument per request. -/

inductive Status where
  | pending
  | verified
  | rejected
deriving DecidableEq

structure Analysis where
  automation : Option AutomationResult
  behavior : Option BehaviorResult
  network : Option NetworkResult
  fingerprint : Option FingerprintResult

structure Session where
  id : String
  createdAt : ℝ
  status : Status
  clientInfo : ClientInfo
  events : List Event
  analysis : Analysis
  rejectionReason : Option String
  verifiedAt : Option ℝ
  verificationScore : Option ℝ

/-- The snapshot fields read from `req.body` by `/init`. -/
structure InitBody where
  fingerprint : Option String
  canvasFingerprint : Option String
  webglFingerprint : Option String
  webglVendor : Option String
  webglRenderer : Option String
  audioFingerprint : Option String
  screenResolution : Option String
  colorDepth : Option ℝ
  pixelRatio : Option ℝ
  timezone : Option String
  timezoneOffset : Option ℝ
  language : Option String
  platform : Option String
  hardwareConcurrency : Option ℝ
  deviceMemory : Option ℝ
  plugins : Option (List String)
  fonts : Option (List String)
  touchSupport : Option Bool
  maxTouchPoints : Option ℝ
  cookiesEnabled : Option Bool
  localStorage : Option Bool
  sessionStorage : Option Bool
  indexedDB : Option Bool
  doNotTrack : Option String
  adBlocker : Option Bool
  webdriver : Option Bool
  automationFlags : Option (List String)
  connectionType : Option String
  connectionSpeed : Option String

/-- The `clientInfo` assembly of `/init` (verify.js:47-89): `|| null` collapses
falsy values to null, `|| false` / `|| 0` default the flags and counters, and
no `navigator`/`window` keys are ever set.  `parsedUA` is the external
`ua-parser-js` result. -/
noncomputable def mkClientInfo (body : InitBody) (req : Req) (parsedUA : ParsedUA) :
    ClientInfo :=
  { ip := getClientIp req
    userAgent := getHeader req.headers "user-agent"
    parsedUserAgent := some parsedUA
    headers := req.headers
    fingerprint := jsStrOpt body.fingerprint
    canvasFingerprint := jsStrOpt body.canvasFingerprint
    webglFingerprint := jsStrOpt body.webglFingerprint
    webglVendor := jsStrOpt body.webglVendor
    webglRenderer := jsStrOpt body.webglRenderer
    audioFingerprint := jsStrOpt body.audioFingerprint
    screenResolution := jsStrOpt body.screenResolution
    colorDepth := jsNumOpt body.colorDepth
    pixelRatio := jsNumOpt body.pixelRatio
    timezone := jsStrOpt body.timezone
    timezoneOffset := jsNumOpt body.timezoneOffset
    language := jsStrOpt body.language
    platform := jsStrOpt body.platform
    hardwareConcurrency := jsNumOpt body.hardwareConcurrency
    deviceMemory := jsNumOpt body.deviceMemory
    plugins := body.plugins
    fonts := body.fonts
    touchSupport := body.touchSupport.getD false
    maxTouchPoints := (jsNumOpt body.maxTouchPoints).getD 0
    cookiesEnabled := body.cookiesEnabled.getD false
    localStorage := body.localStorage.getD false
    sessionStorage := body.sessionStorage.getD false
    indexedDB := body.indexedDB.getD false
    doNotTrack := jsStrOpt body.doNotTrack
    adBlocker := body.adBlocker.getD false
    webdriver := body.webdriver.getD false
    automationFlags := body.automationFlags
    connectionType := jsStrOpt body.connectionType
    connectionSpeed := jsStrOpt body.connectionSpeed
    navigator := none
    window := none }

structure InitResponse where
  sessionId : String
  timestamp : ℝ
  status : Status
  rejectionReason : Option String

/-- `POST /init`: allocate the session, run the automation / fingerprint /
network analyses, and auto-reject when
`automationResult.isAutomated && automationScore > 80`. -/
noncomputable def createSession (parse : ParseOracle) (env : NetworkEnv)
    (body : InitBody) (req : Req) (parsedUA : ParsedUA) (sid : String) (now : ℝ) :
    InitResponse × Session :=
  let ci := mkClientInfo body req parsedUA
  let automationResult := detectAutomation parse ci
  let fingerprintResult := analyzeFingerprint (some ci)
  let networkResult := analyzeNetwork env ci req
  let autoReject :=
    automationResult.isAutomated && decide (80 < automationResult.automationScore)
  let reason :=
    if autoReject then
      some ("检测到自动化工具: " ++ String.intercalate ", " automationResult.detectedTools)
    else none
  let s : Session :=
    { id := sid
      createdAt := now
      status := if autoReject then .rejected else .pending
      clientInfo := ci
      events := []
      analysis := ⟨some automationResult, none, some networkResult, some fingerprintResult⟩
      rejectionReason := reason
      verifiedAt := none
      verificationScore := none }
  (⟨sid, now, s.status, reason⟩, s)

def automationHeadersList : List String :=
  ["x-selenium", "x-selenium-ide-recorder", "x-requested-with", "selenium",
   "driver", "webdriver", "puppeteer", "playwright", "headless", "cypress"]

/-- `checkSuspiciousHeaders(headers)`: header names whose name or string value
contains an automation keyword, in iteration order. -/
def checkSuspiciousHeaders (headers : Headers) : List String :=
  headers.filterMap fun kv =>
    if automationHeadersList.any fun h => jsIncludes (lowerStr kv.1) h then some kv.1
    else
      match jsStrOpt (some kv.2) with
      | some v =>
        if automationHeadersList.any fun h => jsIncludes (lowerStr v) h then some kv.1
        else none
      | none => none

structure RequestPattern where
  suspicious : Bool
  reason : String

/-- `analyzeRequestPattern(session)`: (1) with ≥ 5 events, a coefficient of
variation of the server-side inter-event intervals below `0.1`; (2) with ≥ 3
events, a click at index `> 0` with no mousemove anywhere before it.  The
second check's reason overwrites the first's. -/
noncomputable def analyzeRequestPattern (events : List Event) : RequestPattern :=
  let part1 : Bool :=
    if 5 ≤ events.length then
      let timestamps := events.map Event.timestamp
      let intervals := (consecPairs timestamps).map fun ab => ab.2 - ab.1
      let avg := intervals.sum / (intervals.length : ℝ)
      jsDivLt (jsStdDev intervals) avg 0.1
    else false
  let part2 : Bool :=
    if 3 ≤ events.length then
      events.enum.any fun ie =>
        decide (ie.2.type = "click") && decide (0 < ie.1) &&
          !((events.take ie.1).any fun p => p.type == "mousemove")
    else false
  ⟨part1 || part2,
   if part2 then "在没有鼠标移动的情况下进行了点击"
   else if part1 then "事件时间间隔过于规律"
   else ""⟩

structure AutomationDetails where
  score : ℝ
  isAutomated : Bool
  detectedTools : List String
  reasons : List String

structure BehaviorDetails where
  score : ℝ
  isHuman : Bool
  reasons : List String

structure FingerprintDetails where
  score : ℝ
  fingerprint : Option Json
  anomalies : List String

structure NetworkDetails where
  score : ℝ
  proxied : Bool
  vpnDetected : Bool
  datacenterIP : Bool
  ipTimezoneMatch : Bool

structure Details where
  automation : Option AutomationDetails
  behavior : Option BehaviorDetails
  fingerprint : Option FingerprintDetails
  network : Option NetworkDetails

structure VerificationResult where
  isHuman : Bool
  score : ℝ
  reasons : List String
  details : Details

/-- Check 7: `clientInfo.screenResolution && clientInfo.timezone`. -/
def hasDeviceInfo (ci : ClientInfo) : Bool :=
  (jsStrOpt ci.screenResolution).isSome && (jsStrOpt ci.timezone).isSome

/-- Check 8: `!userAgent || !parsedUserAgent || !parsedUserAgent.browser ||
!parsedUserAgent.os`. -/
def uaIncomplete (ci : ClientInfo) : Bool :=
  (jsStrOpt ci.userAgent).isNone ||
    match ci.parsedUserAgent with
    | none => true
    | some p => !p.browser || !p.os

/-- The score contributions of `verifySession` checks 1-9 (everything except
the request-pattern check 10), in source order. -/
noncomputable def verifyScoreTermsNoPattern (s : Session) (req : Req) (now : ℝ) : ℝ :=
  (match s.analysis.automation with
   | some a => if a.isAutomated then (-40 : ℝ) else 20
   | none => 0) +
    (match s.analysis.behavior with
     | some b => if b.isHuman then (30 : ℝ) else -30
     | none => if s.events.length < 5 then (-20 : ℝ) else 0) +
    (match s.analysis.fingerprint with
     | some f => (f.score - 50) / 2
     | none => 0) +
    (match s.analysis.network with
     | some n => (n.score - 50) / 2
     | none => 0) +
    (if now - s.createdAt < 1000 then (-30 : ℝ)
     else if now - s.createdAt < 3000 ∧ 10 < s.events.length then -20
     else 0) +
    (if s.events.length = 0 then (-30 : ℝ) else 0) +
    (if hasDeviceInfo s.clientInfo then 0 else (-15 : ℝ)) +
    (if uaIncomplete s.clientInfo then (-15 : ℝ) else 0) +
    (if 0 < (checkSuspiciousHeaders req.headers).length then (-15 : ℝ) else 0)

/-- `verifySession(session, req)`: combine the cached analyses and the
session-level checks into the final verdict; the score is
`clamp₀₁₀₀ (Σ deltas + 50)` and `isHuman` means score ≥ 60. -/
noncomputable def verifySession (s : Session) (req : Req) (now : ℝ) :
    VerificationResult :=
  let pattern := analyzeRequestPattern s.events
  let score :=
    jsClamp (verifyScoreTermsNoPattern s req now +
      (if pattern.suspicious then (-20 : ℝ) else 0) + 50)
  let suspicious := checkSuspiciousHeaders req.headers
  let reasons :=
    (match s.analysis.automation with
     | some a =>
       if a.isAutomated then
         ["检测到自动化工具: " ++ String.intercalate ", " a.detectedTools]
       else []
     | none => []) ++
      (match s.analysis.behavior with
       | some b =>
         if b.isHuman then [] else ["行为分析: " ++ String.intercalate ", " b.reasons]
       | none => if s.events.length < 5 then ["用户交互事件太少"] else []) ++
      (match s.analysis.fingerprint with
       | some f =>
         if 0 < f.anomalies.length then
           ["指纹异常: " ++ String.intercalate ", " (f.anomalies.take 3) ++
             (if 3 < f.anomalies.length then "等" else "")]
         else []
       | none => []) ++
      (match s.analysis.network with
       | some n =>
         if 0 < n.reasons.length then
           ["网络分析: " ++ String.intercalate ", " (n.reasons.take 2) ++
             (if 2 < n.reasons.length then "等" else "")]
         else []
       | none => []) ++
      (if now - s.createdAt < 1000 then ["会话时间异常短"]
       else if now - s.createdAt < 3000 ∧ 10 < s.events.length then ["短时间内产生大量事件"]
       else []) ++
      (if s.events.length = 0 then ["没有用户交互事件"] else []) ++
      (if hasDeviceInfo s.clientInfo then [] else ["缺少关键设备信息"]) ++
      (if uaIncomplete s.clientInfo then ["用户代理信息不完整"] else []) ++
      (if 0 < suspicious.length then
        ["可疑的请求头: " ++ String.intercalate ", " suspicious]
       else []) ++
      (if pattern.suspicious then ["异常的请求模式: " ++ pattern.reason] else [])
  ⟨decide (60 ≤ score), score, reasons,
   { automation := s.analysis.automation.map fun a =>
       ⟨100 - a.automationScore, a.isAutomated, a.detectedTools, a.reasons⟩
     behavior := s.analysis.behavior.map fun b => ⟨b.score, b.isHuman, b.reasons⟩
     fingerprint := s.analysis.fingerprint.map fun f => ⟨f.score, f.fingerprint, f.anomalies⟩
     network := s.analysis.network.map fun n =>
       ⟨n.score, n.proxied, n.vpnDetected, n.datacenterIP, n.ipTimezoneMatch⟩ }⟩

inductive RecordResponse where
  | notFound
  | rejectedResp (rejectionReason : Option String)
  | accepted (eventsCount : ℕ)
  | serverError
deriving DecidableEq

/-- `POST /event/:sessionId` on a found session: only a `rejected` session
refuses the event; otherwise it is appended, and on first reaching 10 events
with no cached behavior analysis the analyzer runs once, possibly rejecting
the session. -/
noncomputable def recordEvent (pca : Option ℝ) (s : Session) (etype : String)
    (edata : Option EventData) (now : ℝ) : RecordResponse × Session :=
  if s.status = .rejected then (.rejectedResp (jsStrOpt s.rejectionReason), s)
  else
    let s1 := { s with events := s.events ++ [⟨etype, edata, now⟩] }
    if 10 ≤ s1.events.length ∧ s1.analysis.behavior.isNone then
      match analyzeBehavior now pca s1.events with
      | none => (.serverError, s1)
      | some behaviorResult =>
        let s2 := { s1 with analysis := { s1.analysis with behavior := some behaviorResult } }
        if behaviorResult.isHuman = false ∧ behaviorResult.score < 30 then
          let s3 := { s2 with
            status := Status.rejected
            rejectionReason := some "行为模式与机器人相似" }
          (.rejectedResp s3.rejectionReason, s3)
        else (.accepted s2.events.length, s2)
    else (.accepted s1.events.length, s1)

/-- `POST /event/:sessionId` including the not-found case. -/
noncomputable def recordEventAt (pca : Option ℝ) (s? : Option Session) (etype : String)
    (edata : Option EventData) (now : ℝ) : RecordResponse × Option Session :=
  match s? with
  | none => (.notFound, none)
  | some s =>
    let rs := recordEvent pca s etype edata now
    (rs.1, some rs.2)

inductive VerifyResponse where
  | notFound
  | cached (isHuman : Bool) (score : ℝ) (reasons : List String)
      (automationDetected : Bool) (detectedTools : List String)
  | fresh (result : VerificationResult)
  | serverError

/-- The response of `/verify/:sessionId` on a non-pending session: the cached
verdict, with `reasons` collapsed to the stored rejection reason and the
`details` object replaced by `automationDetected`/`detectedTools`. -/
noncomputable def cachedResult (s : Session) : VerifyResponse :=
  .cached (decide (s.status = .verified)) (jsOrNum s.verificationScore 0)
    (match jsStrOpt s.rejectionReason with | some r => [r] | none => [])
    ((s.analysis.automation.map AutomationResult.isAutomated).getD false)
    ((s.analysis.automation.map AutomationResult.detectedTools).getD [])

/-- `POST /verify/:sessionId` on a found session: non-pending sessions return
the cached verdict unchanged; a pending session lazily computes the behavior
analysis (when events exist), runs `verifySession`, transitions to
`verified`/`rejected`, and truncates the event log to its first 50 entries. -/
noncomputable def evaluate (pca : Option ℝ) (s : Session) (req : Req) (now : ℝ) :
    VerifyResponse × Session :=
  if s.status ≠ .pending then (cachedResult s, s)
  else
    let behaviorStep : Option (Option BehaviorResult) :=
      if s.analysis.behavior.isNone ∧ 0 < s.events.length then
        match analyzeBehavior now pca s.events with
        | none => none
        | some b => some (some b)
      else some s.analysis.behavior
    match behaviorStep with
    | none => (.serverError, s)
    | some behavior =>
      let s1 := { s with analysis := { s.analysis with behavior := behavior } }
      let result := verifySession s1 req now
      let s2 := { s1 with
        status := if result.isHuman then .verified else .rejected
        verifiedAt := some now
        verificationScore := some result.score
        rejectionReason :=
          if result.isHuman then s1.rejectionReason
          else some (String.intercalate ", " result.reasons) }
      let s3 := if 50 < s2.events.length then { s2 with events := s2.events.take 50 } else s2
      (.fresh result, s3)

structure StatusView where
  status : Status
  createdAt : ℝ
  verifiedAt : Option ℝ
  eventsCount : ℕ
  rejectionReason : Option String
  automationDetected : Bool
  detectedTools : List String

/-- `GET /status/:sessionId` on a found session (read-only). -/
noncomputable def getStatusView (s : Session) : StatusView :=
  ⟨s.status, s.createdAt, jsNumOpt s.verifiedAt, s.events.length,
   jsStrOpt s.rejectionReason,
   (s.analysis.automation.map AutomationResult.isAutomated).getD false,
   (s.analysis.automation.map AutomationResult.detectedTools).getD []⟩

/-- `cleanupSessions` applied to one entry: sessions older than 24 hours are
deleted, the rest are kept untouched. -/
noncomputable def sweepSession (now : ℝ) (s : Session) : Option Session :=
  if 24 * 60 * 60 * 1000 < now - s.createdAt then none else some s

/-! ## Equational views of `detectAutomation` -/

theorem detectAutomation_isAutomated (oracle : ParseOracle) (info : ClientInfo) :
    (detectAutomation oracle info).isAutomated =
      (detectWebDriver (info.navigator.getD emptyNavigator) ||
        (detectSelenium info.userAgent (info.window.getD emptyWindow)).detected ||
        (detectPuppeteer info.userAgent (info.navigator.getD emptyNavigator)
          (info.window.getD emptyWindow)).detected ||
        (detectPlaywright info.userAgent (info.navigator.getD emptyNavigator)
          (info.window.getD emptyWindow)).detected ||
        decide (50 ≤ detectAutomationRawScore oracle info)) := rfl

theorem detectAutomation_score (oracle : ParseOracle) (info : ClientInfo) :
    (detectAutomation oracle info).automationScore =
      min (detectAutomationRawScore oracle info) 100 := rfl

theorem detectAutomation_tools (oracle : ParseOracle) (info : ClientInfo) :
    (detectAutomation oracle info).detectedTools =
      ((if detectWebDriver (info.navigator.getD emptyNavigator) then ["WebDriver"] else []) ++
        (if (detectSelenium info.userAgent (info.window.getD emptyWindow)).detected
         then ["Selenium"] else []) ++
        (if (detectPuppeteer info.userAgent (info.navigator.getD emptyNavigator)
          (info.window.getD emptyWindow)).detected then ["Puppeteer"] else []) ++
        (if (detectPlaywright info.userAgent (info.navigator.getD emptyNavigator)
          (info.window.getD emptyWindow)).detected then ["Playwright"] else []) ++
        (if !(detectWebDriver (info.navigator.getD emptyNavigator) ||
            (detectSelenium info.userAgent (info.window.getD emptyWindow)).detected ||
            (detectPuppeteer info.userAgent (info.navigator.getD emptyNavigator)
              (info.window.getD emptyWindow)).detected ||
            (detectPlaywright info.userAgent (info.navigator.getD emptyNavigator)
              (info.window.getD emptyWindow)).detected) &&
            decide (50 ≤ detectAutomationRawScore oracle info)
         then ["Unknown Automation"] else [])) := rfl

/-- **C10**: every path of `detectAutomation` that sets `isAutomated` also
records a named tool (`WebDriver`/`Selenium`/`Puppeteer`/`Playwright`, or
`Unknown Automation` when only the 50-point threshold fires), so the
detected-tools list is non-empty whenever `isAutomated` is true. -/
theorem c10_isAutomated_names_a_tool (oracle : ParseOracle) (info : ClientInfo)
    (h : (detectAutomation oracle info).isAutomated = true) :
    (detectAutomation oracle info).detectedTools ≠ [] := by
  rw [detectAutomation_isAutomated] at h
  rw [detectAutomation_tools]
  generalize detectWebDriver (info.navigator.getD emptyNavigator) = b1 at h ⊢
  generalize (detectSelenium info.userAgent (info.window.getD emptyWindow)).detected = b2
    at h ⊢
  generalize (detectPuppeteer info.userAgent (info.navigator.getD emptyNavigator)
    (info.window.getD emptyWindow)).detected = b3 at h ⊢
  generalize (detectPlaywright info.userAgent (info.navigator.getD emptyNavigator)
    (info.window.getD emptyWindow)).detected = b4 at h ⊢
  generalize decide (50 ≤ detectAutomationRawScore oracle info) = b5 at h ⊢
  cases b1 <;> cases b2 <;> cases b3 <;> cases b4 <;> cases b5 <;> simp_all

/-- **C5 (amended)**: `isAutomated` holds iff the WebDriver check fired, or one
of the tool-specific detectors (Selenium/Puppeteer/Playwright) reported
`detected`, or the automation score reached 50. -/
theorem c5_isAutomated_iff (oracle : ParseOracle) (info : ClientInfo) :
    (detectAutomation oracle info).isAutomated = true ↔
      (detectWebDriver (info.navigator.getD emptyNavigator) = true ∨
        (detectSelenium info.userAgent (info.window.getD emptyWindow)).detected = true ∨
        (detectPuppeteer info.userAgent (info.navigator.getD emptyNavigator)
          (info.window.getD emptyWindow)).detected = true ∨
        (detectPlaywright info.userAgent (info.navigator.getD emptyNavigator)
          (info.window.getD emptyWindow)).detected = true ∨
        50 ≤ (detectAutomation oracle info).automationScore) := by
  rw [detectAutomation_isAutomated, detectAutomation_score]
  simp only [Bool.or_eq_true, decide_eq_true_eq, le_min_iff,
    (by norm_num : (50 : ℝ) ≤ 100), and_true]
  tauto

/-! ## Shared concrete inputs -/

/-- A minimal snapshot: everything absent. -/
noncomputable def tinyClientInfo : ClientInfo :=
  { ip := none, userAgent := none, parsedUserAgent := none, headers := []
    fingerprint := none, canvasFingerprint := none, webglFingerprint := none
    webglVendor := none, webglRenderer := none, audioFingerprint := none
    screenResolution := none, colorDepth := none, pixelRatio := none
    timezone := none, timezoneOffset := none, language := none, platform := none
    hardwareConcurrency := none, deviceMemory := none, plugins := none, fonts := none
    touchSupport := false, maxTouchPoints := 0, cookiesEnabled := false
    localStorage := false, sessionStorage := false, indexedDB := false
    doNotTrack := none, adBlocker := false, webdriver := false
    automationFlags := none, connectionType := none, connectionSpeed := none
    navigator := none, window := none }

noncomputable def emptyAnalysis : Analysis := ⟨none, none, none, none⟩

noncomputable def emptyReq : Req := ⟨[], none, none, none⟩

/-- A session already in the `rejected` state. -/
noncomputable def rejectedSessionLit : Session :=
  { id := "s-rej", createdAt := 0, status := Status.rejected
    clientInfo := tinyClientInfo, events := [], analysis := emptyAnalysis
    rejectionReason := some "r", verifiedAt := none, verificationScore := some 0 }

/-! ## C1: status transitions -/

/-- **C1 (amended)**: the status discipline actually enforced by the code.
(1) a `rejected` session is absorbing: `RecordEvent` answers with the cached
rejection and `Evaluate` with the cached verdict, neither mutates the session;
(2) `RecordEvent` either preserves the status or moves it to `rejected` (this
is how a `verified` session can still be re-rejected, since only `rejected` is
guarded); (3) from `pending`, `Evaluate` either fails with a server error
(status still `pending`) or lands in `verified`/`rejected`;
(4) on a non-`pending` session `Evaluate` is the identity; (5) `Sweep` never
alters a surviving session; (6) `CreateSession` starts at `pending` or
`rejected`. -/
theorem c1_status_machine (pca : Option ℝ) (s : Session) (etype : String)
    (edata : Option EventData) (req : Req) (now : ℝ) :
    (s.status = Status.rejected →
      recordEvent pca s etype edata now =
        (.rejectedResp (jsStrOpt s.rejectionReason), s) ∧
      evaluate pca s req now = (cachedResult s, s)) ∧
    ((recordEvent pca s etype edata now).2.status = s.status ∨
      (recordEvent pca s etype edata now).2.status = Status.rejected) ∧
    (s.status = Status.pending →
      ((evaluate pca s req now).2.status = Status.pending ∧
        (evaluate pca s req now).1 = .serverError) ∨
      (evaluate pca s req now).2.status = Status.verified ∨
      (evaluate pca s req now).2.status = Status.rejected) ∧
    (s.status ≠ Status.pending → evaluate pca s req now = (cachedResult s, s)) ∧
    (∀ s', sweepSession now s = some s' → s' = s) ∧
    (∀ parse env body pua sid,
      (createSession parse env body req pua sid now).2.status = Status.pending ∨
      (createSession parse env body req pua sid now).2.status = Status.rejected) :=
  by
  refine ⟨?_, ?_, ?_, ?_, ?_, ?_⟩
  · intro hrej
    have hnp : s.status ≠ Status.pending := by simp [hrej]
    exact ⟨by simp [recordEvent, hrej], by simp [evaluate, hnp]⟩
  · by_cases hrej : s.status = Status.rejected
    · left; simp [recordEvent, hrej]
    · simp only [recordEvent, if_neg hrej]
      split
      · split
        · left; rfl
        · split
          · right; rfl
          · left; rfl
      · left; rfl
  · intro hp
    have hnp : ¬s.status ≠ Status.pending := by simp [hp]
    simp only [evaluate, if_neg hnp]
    split
    · exact Or.inl ⟨hp, rfl⟩
    · right
      split_ifs <;> simp
  · intro hnp
    simp [evaluate, hnp]
  · intro s' hs'
    simp only [sweepSession] at hs'
    split at hs'
    · exact absurd hs' (by simp)
    · exact (Option.some.injEq _ _ ▸ hs').symm ▸ rfl
  · intro parse env body pua sid
    simp only [createSession]
    split <;> simp

/-! ## C3/C4: terminal sessions -/

/-- **C3 (amended)**: once a session is terminal, `Evaluate` is idempotent —
every post-terminal call returns the cached verdict built from the stored
status/score/rejection reason and leaves the session unchanged, so any two
post-terminal calls return identical results.  (The cached verdict is *not*
byte-identical to the result of the evaluation that made the session
terminal: it collapses `reasons` to the stored rejection reason and replaces
`details` by `automationDetected`/`detectedTools`.) -/
theorem c3_terminal_evaluate_idempotent (pca pca' : Option ℝ) (s : Session)
    (req req' : Req) (now now' : ℝ) (h : s.status ≠ Status.pending) :
    evaluate pca s req now = (cachedResult s, s) ∧
    (evaluate pca' (evaluate pca s req now).2 req' now').1 =
      (evaluate pca s req now).1 := by
  have h1 : evaluate pca s req now = (cachedResult s, s) := by simp [evaluate, h]
  refine ⟨h1, ?_⟩
  rw [h1]
  simp [evaluate, h]

/-- **C4 (amended)**: `RecordEvent` refuses an event only on a `rejected`
session, answering with the distinct rejected response that carries the cached
reason (not-found is its own response); on a `pending` *or `verified`* session
the event is appended to the log. -/
theorem c4_record_event_append (pca : Option ℝ) (s : Session) (etype : String)
    (edata : Option EventData) (now : ℝ) :
    (s.status = Status.rejected →
      recordEvent pca s etype edata now =
        (.rejectedResp (jsStrOpt s.rejectionReason), s)) ∧
    (s.status ≠ Status.rejected →
      (recordEvent pca s etype edata now).2.events = s.events ++ [⟨etype, edata, now⟩]) ∧
    recordEventAt pca none etype edata now = (.notFound, none) := by
  refine ⟨fun h => by simp [recordEvent, h], fun h => ?_, rfl⟩
  simp only [recordEvent, if_neg h]
  split
  · split
    · rfl
    · split_ifs <;> rfl
  · rfl

/-! ## C7: analyzer score bounds -/

theorem ite_nonneg_real {c : Prop} [Decidable c] {x y : ℝ} (hx : 0 ≤ x) (hy : 0 ≤ y) :
    0 ≤ if c then x else y := by
  split_ifs <;> assumption

theorem jsClamp_bounds (x : ℝ) : 0 ≤ jsClamp x ∧ jsClamp x ≤ 100 := by
  constructor
  · exact le_max_left 0 _
  · rw [jsClamp, max_le_iff]
    constructor
    · norm_num
    · exact le_trans (min_le_left _ _) le_rfl

theorem detectSelenium_score_nonneg (ua : Option String) (win : WindowInfo) :
    0 ≤ (detectSelenium ua win).score := by
  unfold detectSelenium
  split
  · norm_num
  · dsimp only
    split_ifs <;> norm_num

theorem detectPuppeteer_score_nonneg (ua : Option String) (nav : NavigatorInfo)
    (win : WindowInfo) : 0 ≤ (detectPuppeteer ua nav win).score := by
  unfold detectPuppeteer
  split
  · norm_num
  · dsimp only
    split_ifs <;> norm_num

theorem detectPlaywright_score_nonneg (ua : Option String) (nav : NavigatorInfo)
    (win : WindowInfo) : 0 ≤ (detectPlaywright ua nav win).score := by
  unfold detectPlaywright
  split
  · norm_num
  · dsimp only
    split_ifs <;> norm_num

theorem detectBrowserInconsistency_score_nonneg (ua : Option String) (hs : Headers)
    (nav : NavigatorInfo) (oracle : ParseOracle) :
    0 ≤ (detectBrowserInconsistency ua hs nav oracle).score := by
  unfold detectBrowserInconsistency
  split
  · norm_num
  · split
    · norm_num
    · dsimp only
      split_ifs <;> norm_num

theorem detectAutomationRawScore_nonneg (oracle : ParseOracle) (info : ClientInfo) :
    0 ≤ detectAutomationRawScore oracle info := by
  unfold detectAutomationRawScore
  refine add_nonneg (add_nonneg (add_nonneg (add_nonneg (add_nonneg (add_nonneg
    (add_nonneg (add_nonneg (add_nonneg (add_nonneg ?_ ?_) ?_) ?_) ?_) ?_) ?_) ?_) ?_)
    ?_) ?_
  · exact ite_nonneg_real (by norm_num) le_rfl
  · exact ite_nonneg_real (detectSelenium_score_nonneg _ _) le_rfl
  · exact ite_nonneg_real (detectPuppeteer_score_nonneg _ _ _) le_rfl
  · exact ite_nonneg_real (detectPlaywright_score_nonneg _ _ _) le_rfl
  · exact ite_nonneg_real (detectBrowserInconsistency_score_nonneg _ _ _ _) le_rfl
  all_goals exact ite_nonneg_real (by norm_num) le_rfl

/-- **C7**: each of the four analyzers only ever reports a score in `[0, 100]`
— the automation score is a sum of non-negative deltas capped at 100, the
fingerprint and network scores are clamped (their early exits return 0 or 10),
and the behavior score, whenever the analyzer returns at all, is a sum of
deltas from `{30, 25, 25, 20}`. -/
theorem c7_analyzer_scores_bounded :
    (∀ oracle info, 0 ≤ (detectAutomation oracle info).automationScore ∧
      (detectAutomation oracle info).automationScore ≤ 100) ∧
    (∀ now pca events r, analyzeBehavior now pca events = some r →
      0 ≤ r.score ∧ r.score ≤ 100) ∧
    (∀ info, 0 ≤ (analyzeFingerprint info).score ∧ (analyzeFingerprint info).score ≤ 100) ∧
    (∀ env ci req, 0 ≤ (analyzeNetwork env ci req).score ∧
      (analyzeNetwork env ci req).score ≤ 100) := by
  refine ⟨?_, ?_, ?_, ?_⟩
  · intro oracle info
    rw [detectAutomation_score]
    constructor
    · exact le_min (detectAutomationRawScore_nonneg oracle info) (by norm_num)
    · exact min_le_right _ _
  · intro now pca events r h
    simp only [analyzeBehavior] at h
    split at h
    · injection h with h2
      rw [← h2]
      norm_num
    · split at h
      · injection h with h2
        rw [← h2]
        norm_num
      · split at h
        · exact absurd h (by simp)
        · injection h with h2
          rw [← h2]
          simp only
          split_ifs <;> (try split) <;> norm_num
  · intro info
    match info with
    | none => norm_num [analyzeFingerprint]
    | some ci => exact jsClamp_bounds _
  · intro env ci req
    unfold analyzeNetwork
    split
    · norm_num
    · split
      · norm_num
      · exact jsClamp_bounds _

/-! ## C8: the fingerprint identity hash -/

theorem jsonNumOrEmptyStr_inj (a b : Option ℝ) :
    ((match a with | some v => Json.num v | none => Json.str "") =
      (match b with | some v => Json.num v | none => Json.str "")) ↔ a = b := by
  rcases a with _ | x <;> rcases b with _ | y <;> simp

theorem jsonNumOrNull_inj (a b : Option ℝ) :
    ((match a with | some v => Json.num v | none => Json.null) =
      (match b with | some v => Json.num v | none => Json.null)) ↔ a = b := by
  rcases a with _ | x <;> rcases b with _ | y <;> simp

theorem jsonStrOrNull_inj (a b : Option String) :
    ((match a with | some s => Json.str s | none => Json.null) =
      (match b with | some s => Json.str s | none => Json.null)) ↔ a = b := by
  rcases a with _ | x <;> rcases b with _ | y <;> simp

theorem jsonStrList_inj (a b : List String) :
    (a.map Json.str = b.map Json.str) ↔ a = b := by
  constructor
  · intro h
    exact List.map_injective_iff.mpr (fun x y hxy => by injection hxy) h
  · intro h
    rw [h]

theorem jsonArrOrEmptyStr_inj (a b : Option (List String)) :
    ((match a with | some l => Json.arr (l.map .str) | none => Json.str "") =
      (match b with | some l => Json.arr (l.map .str) | none => Json.str "")) ↔ a = b := by
  rcases a with _ | x <;> rcases b with _ | y <;> simp [jsonStrList_inj]

/-- **C8**: the fingerprint identity hash is a pure, deterministic function of
the component record — `analyzeFingerprint` publishes exactly the hash of the
components it extracted — and distinct component records always produce
distinct hashes (the serialization is injective; the external SHA-256 digest
is treated as injective at the interface, per the spec determinism is
mandatory and collision analysis out of scope). -/
theorem c8_fingerprint_hash_deterministic_injective :
    (∀ c c' : FingerprintComponents,
      generateFingerprintHash c = generateFingerprintHash c' ↔ c = c') ∧
    (∀ info : Option ClientInfo,
      (analyzeFingerprint info).fingerprint =
        (analyzeFingerprint info).fingerprintComponents.map generateFingerprintHash) := by
  constructor
  · intro c c'
    constructor
    · intro h
      cases c
      cases c'
      simp only [generateFingerprintHash, Json.obj.injEq, List.cons.injEq,
        Prod.mk.injEq, true_and, and_true, Json.str.injEq, Json.num.injEq,
        Json.bool.injEq, Json.arr.injEq, jsonNumOrEmptyStr_inj, jsonNumOrNull_inj,
        jsonStrOrNull_inj, jsonStrList_inj, jsonArrOrEmptyStr_inj] at h
      simp only [FingerprintComponents.mk.injEq]
      tauto
    · intro h
      rw [h]
  · intro info
    rcases info with _ | ci <;> rfl

/-! ## C2: rejection at session creation -/

/-- **C2 (amended)**: `CreateSession` rejects exactly when the automation
detector reports `isAutomated` with a score above 80 (the response mirrors the
stored status); the client-reported `webdriver` flag is not among the
detector's inputs — `detectAutomation` reads a `navigator` object that `/init`
never populates — so changing the flag changes nothing in the initial
status. -/
theorem c2_create_session_reject_iff (parse : ParseOracle) (env : NetworkEnv)
    (body : InitBody) (req : Req) (pua : ParsedUA) (sid : String) (now : ℝ) :
    ((createSession parse env body req pua sid now).2.status = Status.rejected ↔
      (detectAutomation parse (mkClientInfo body req pua)).isAutomated = true ∧
        80 < (detectAutomation parse (mkClientInfo body req pua)).automationScore) ∧
    (createSession parse env body req pua sid now).1.status =
      (createSession parse env body req pua sid now).2.status ∧
    (∀ b : Option Bool,
      (createSession parse env { body with webdriver := b } req pua sid now).2.status =
        (createSession parse env body req pua sid now).2.status) := by
  refine ⟨?_, rfl, fun b => rfl⟩
  have hs : (createSession parse env body req pua sid now).2.status =
      (if ((detectAutomation parse (mkClientInfo body req pua)).isAutomated &&
        decide (80 < (detectAutomation parse (mkClientInfo body req pua)).automationScore))
        = true then Status.rejected else Status.pending) := rfl
  rw [hs]
  rcases hb : ((detectAutomation parse (mkClientInfo body req pua)).isAutomated &&
      decide (80 < (detectAutomation parse (mkClientInfo body req pua)).automationScore))
    with _ | _
  · rw [if_neg (by simp : ¬(false = true))]
    constructor
    · intro h
      exact absurd h (by simp)
    · rintro ⟨h1, h2⟩
      rw [h1, Bool.true_and] at hb
      exact absurd h2 (by simpa using hb)
  · simp only [Bool.and_eq_true, decide_eq_true_eq] at hb
    simp [hb]

/-! ## Concrete inputs for the counterexamples and witnesses -/

def benignUA : String := "Mozilla/5.0 Chrome/120 Safari/537"

def benignHeaders : Headers :=
  [("user-agent", benignUA), ("accept", "text/html,application/xhtml+xml"),
   ("accept-language", "en-US,en;q=0.9")]

noncomputable def benignReq : Req := ⟨benignHeaders, some "9.9.9.9", none, none⟩

def benignParse : ParseOracle :=
  ⟨some (⟨some "Chrome", some "Windows"⟩, ⟨some "Chrome", some "Windows"⟩)⟩

def benignNetEnv : NetworkEnv := ⟨false, some ⟨"US"⟩, some false, some false⟩

def richPUA : ParsedUA := ⟨true, true⟩

/-- A fully-populated, benign snapshot that nevertheless reports
`webdriver: true`. -/
noncomputable def richBody : InitBody :=
  { fingerprint := none
    canvasFingerprint := some ⟨List.replicate 60 'c'⟩
    webglFingerprint := some ⟨List.replicate 60 'w'⟩
    webglVendor := some "NVIDIA Corporation"
    webglRenderer := some "GeForce GTX"
    audioFingerprint := some ⟨List.replicate 12 'a'⟩
    screenResolution := some "1536x864"
    colorDepth := some 24
    pixelRatio := some 1
    timezone := some "America/New_York"
    timezoneOffset := some (-300)
    language := some "en-US"
    platform := some "Win32"
    hardwareConcurrency := some 8
    deviceMemory := some 16
    plugins := some ["p1", "p2", "p3"]
    fonts := some (List.replicate 20 "Arial")
    touchSupport := some false
    maxTouchPoints := some 0
    cookiesEnabled := some true
    localStorage := some true
    sessionStorage := some true
    indexedDB := some true
    doNotTrack := none
    adBlocker := some false
    webdriver := some true
    automationFlags := none
    connectionType := none
    connectionSpeed := none }

/-- The `clientInfo` that `/init` assembles from `richBody` over `benignReq`. -/
noncomputable def richInfo : ClientInfo :=
  { ip := some "9.9.9.9", userAgent := some benignUA, parsedUserAgent := some richPUA
    headers := benignHeaders, fingerprint := none
    canvasFingerprint := some ⟨List.replicate 60 'c'⟩
    webglFingerprint := some ⟨List.replicate 60 'w'⟩
    webglVendor := some "NVIDIA Corporation", webglRenderer := some "GeForce GTX"
    audioFingerprint := some ⟨List.replicate 12 'a'⟩
    screenResolution := some "1536x864", colorDepth := some 24, pixelRatio := some 1
    timezone := some "America/New_York", timezoneOffset := some (-300)
    language := some "en-US", platform := some "Win32"
    hardwareConcurrency := some 8, deviceMemory := some 16
    plugins := some ["p1", "p2", "p3"], fonts := some (List.replicate 20 "Arial")
    touchSupport := false, maxTouchPoints := 0
    cookiesEnabled := true, localStorage := true, sessionStorage := true
    indexedDB := true, doNotTrack := none, adBlocker := false, webdriver := true
    automationFlags := none, connectionType := none, connectionSpeed := none
    navigator := none, window := none }

theorem mkClientInfo_rich : mkClientInfo richBody benignReq richPUA = richInfo := by
  simp only [mkClientInfo, richBody, richInfo, ClientInfo.mk.injEq, jsNumOpt, jsStrOpt]
  norm_num
  decide

/-! ### Evaluating the automation detector on `richInfo` -/

theorem richInfo_ua : jsStrOpt richInfo.userAgent = some benignUA := rfl

theorem rich_wd : detectWebDriver (richInfo.navigator.getD emptyNavigator) = false := rfl

theorem rich_sel_detected :
    (detectSelenium richInfo.userAgent (richInfo.window.getD emptyWindow)).detected =
      false := rfl

theorem rich_incons_detected :
    (detectBrowserInconsistency richInfo.userAgent richInfo.headers
      (richInfo.navigator.getD emptyNavigator) benignParse).detected = false := rfl

theorem rich_tz : detectAbnormalTimezone richInfo = false := rfl

theorem rich_plug : detectAbnormalPluginCount (richInfo.navigator.getD emptyNavigator) =
    false := rfl

theorem rich_hw :
    detectAbnormalHardwareConcurrency (richInfo.navigator.getD emptyNavigator) =
      false := rfl

theorem rich_lang :
    detectAbnormalLanguage (richInfo.navigator.getD emptyNavigator) richInfo.headers =
      false := rfl

theorem rich_uaCons : checkUserAgentConsistency richInfo.userAgent richInfo.headers =
    true := rfl

theorem rich_pup_detected :
    (detectPuppeteer richInfo.userAgent (richInfo.navigator.getD emptyNavigator)
      (richInfo.window.getD emptyWindow)).detected = false := by
  simp only [detectPuppeteer, richInfo_ua]
  simp only [show (jsIncludes benignUA "HeadlessChrome") = false from rfl,
    show ((richInfo.navigator.getD emptyNavigator).plugins == some []) = false from rfl,
    show (richInfo.window.getD emptyWindow).chrome = none from rfl,
    show ((richInfo.navigator.getD emptyNavigator).languages == some []) = false from rfl]
  simp only [Bool.false_eq_true, if_false, Bool.false_or, decide_eq_false_iff_not]
  norm_num

theorem rich_play_detected :
    (detectPlaywright richInfo.userAgent (richInfo.navigator.getD emptyNavigator)
      (richInfo.window.getD emptyWindow)).detected = false := by
  simp only [detectPlaywright, richInfo_ua]
  simp only [show (richInfo.navigator.getD emptyNavigator).permissionsQuery = false from rfl,
    show (jsIncludes benignUA "Playwright") = false from rfl,
    show (richInfo.window.getD emptyWindow).webGLRenderingContext = false from rfl]
  simp only [Bool.false_eq_true, if_false, Bool.false_or, decide_eq_false_iff_not]
  norm_num

theorem rich_screen : detectAbnormalScreenSize richInfo = false := by
  simp only [detectAbnormalScreenSize,
    show jsStrOpt richInfo.screenResolution = some "1536x864" from rfl,
    show commonAutomatedSizes.contains "1536x864" = false from rfl,
    show parseResolution "1536x864" = (some 1536, some 864) from rfl]
  simp only [Bool.false_or, if_neg (by norm_num : ¬(1536 : ℕ) = 0)]
  simp only [Bool.or_eq_false_iff, decide_eq_false_iff_not]
  norm_num

theorem rich_raw : detectAutomationRawScore benignParse richInfo = 0 := by
  rw [detectAutomationRawScore]
  simp only [rich_wd, rich_sel_detected, rich_pup_detected, rich_play_detected,
    rich_incons_detected, rich_screen, rich_tz, rich_plug, rich_hw, rich_lang,
    rich_uaCons, Bool.false_eq_true, if_false, Bool.not_true, Bool.false_eq_true]
  norm_num

theorem rich_automation : detectAutomation benignParse richInfo = ⟨false, 0, [], []⟩ := by
  simp only [detectAutomation, rich_raw, rich_wd, rich_sel_detected, rich_pup_detected,
    rich_play_detected, rich_incons_detected, rich_screen, rich_tz, rich_plug, rich_hw,
    rich_lang, rich_uaCons, Bool.false_eq_true, if_false, Bool.not_true,
    Bool.or_self, Bool.false_or, decide_eq_false_iff_not]
  norm_num [AutomationResult.mk.injEq]

/-! ### Evaluating the fingerprint analyzer on `richInfo` -/

noncomputable def richComponents : FingerprintComponents :=
  { userAgent := benignUA, language := "en-US", colorDepth := some 24
    screenResolution := "1536x864", timezone := "America/New_York"
    timezoneOffset := some (-300), platform := "Win32"
    plugins := some ["p1", "p2", "p3"]
    canvasFingerprint := some ⟨List.replicate 60 'c'⟩
    webglFingerprint := some ⟨List.replicate 60 'w'⟩
    webglVendor := "NVIDIA Corporation", webglRenderer := "GeForce GTX"
    audioFingerprint := some ⟨List.replicate 12 'a'⟩
    fonts := List.replicate 20 "Arial", touchSupport := false, maxTouchPoints := 0
    hardwareConcurrency := some 8, deviceMemory := some 16, pixelRatio := some 1 }

theorem rich_components : extractFingerprintComponents richInfo = richComponents := by
  simp only [extractFingerprintComponents, richInfo, richComponents, jsStrOpt, jsNumOpt,
    FingerprintComponents.mk.injEq]
  norm_num
  decide

theorem rich_fp_canvas : analyzeCanvasFingerprint ⟨List.replicate 60 'c'⟩ = ⟨10, []⟩ := rfl

theorem rich_fp_audio : analyzeAudioFingerprint ⟨List.replicate 12 'a'⟩ = ⟨5, []⟩ := rfl

theorem rich_fp_plugins : analyzePlugins ["p1", "p2", "p3"] = ⟨5, []⟩ := rfl

theorem rich_fp_webgl :
    analyzeWebGLFingerprint ⟨List.replicate 60 'w'⟩ "NVIDIA Corporation" "GeForce GTX" =
      ⟨10, []⟩ := by
  simp only [analyzeWebGLFingerprint, ne_eq,
    show ¬((⟨List.replicate 60 'w'⟩ : String).length < 50) from by decide,
    eq_false (by decide : ¬(("NVIDIA Corporation" : String) = "")),
    eq_false (by decide : ¬(("GeForce GTX" : String) = "")),
    show (automatedWebGLVendors.any fun v => jsIncludes "NVIDIA Corporation" v) = false
      from rfl,
    show (automatedWebGLRenderers.any fun r => jsIncludes "GeForce GTX" r) = false
      from rfl,
    not_false_eq_true, and_true, true_and, if_false, if_true, Bool.false_eq_true]
  norm_num [FpDelta.mk.injEq]

theorem rich_fp_fonts : analyzeFonts (List.replicate 20 "Arial") = ⟨15, []⟩ := by
  simp only [analyzeFonts,
    show ¬((List.replicate 20 "Arial").length < 5) from by decide,
    show ¬(5 < (List.replicate 20 "Arial").length ∧ (List.replicate 20 "Arial").length < 20)
      from by decide,
    show (20 ≤ (List.replicate 20 "Arial").length) from by decide,
    show (commonFonts.any fun c =>
      (List.replicate 20 "Arial").any fun f => jsIncludes (lowerStr f) (lowerStr c)) = true
      from rfl,
    if_false, if_true]
  norm_num [FpDelta.mk.injEq]

theorem rich_fp_screen : analyzeScreenInfo "1536x864" (some 24) (some 1) = ⟨15, []⟩ := by
  simp only [analyzeScreenInfo,
    show parseResolution "1536x864" = (some 1536, some 864) from rfl,
    show ¬((1536 : ℕ) < 320 ∨ (864 : ℕ) < 240) from by decide,
    if_false, if_true]
  rw [if_neg (by norm_num : ¬((24 : ℝ) < 24)), if_neg (by norm_num : ¬((1 : ℝ) < 1 ∨ 5 < (1 : ℝ)))]
  norm_num [FpDelta.mk.injEq]

theorem rich_fp_hardware : analyzeHardwareInfo (some 8) (some 16) = ⟨10, []⟩ := by
  simp only [analyzeHardwareInfo]
  rw [if_neg (by norm_num : ¬((8 : ℝ) < 2)), if_pos (by norm_num : (2 : ℝ) ≤ 8 ∧ (8 : ℝ) ≤ 16),
    if_neg (by norm_num : ¬((16 : ℝ) < 2)), if_pos (by norm_num : (2 : ℝ) ≤ 16 ∧ (16 : ℝ) ≤ 32)]
  norm_num [FpDelta.mk.injEq]

theorem rich_fp_timezone : analyzeTimezone "America/New_York" (some (-300)) = ⟨10, []⟩ := by
  simp only [analyzeTimezone,
    show ¬("America/New_York" = "UTC" ∨ "America/New_York" = "GMT" ∨
      jsStartsWith "America/New_York" "Etc/GMT" = true) from by decide,
    show getExpectedTimezoneOffset "America/New_York" = some (-300) from rfl,
    if_false]
  rw [if_neg (by norm_num : ¬((60 : ℝ) < |(-300 : ℝ) - -300|))]
  norm_num [FpDelta.mk.injEq]

theorem rich_fp_touch : analyzeTouchSupport false 0 = ⟨5, []⟩ := by
  simp only [analyzeTouchSupport]
  norm_num

theorem rich_fingerprint_score : (analyzeFingerprint (some richInfo)).score = 100 := by
  simp only [analyzeFingerprint, rich_components, richComponents, FpStep.ofDelta,
    rich_fp_canvas, rich_fp_audio, rich_fp_plugins, rich_fp_webgl, rich_fp_fonts,
    rich_fp_screen, rich_fp_hardware, rich_fp_timezone, rich_fp_touch,
    show ((List.replicate 20 "Arial").length > 0) from by decide,
    eq_false (by decide : ¬(("1536x864" : String) = "")),
    show (some (8 : ℝ)).isSome = true ∨ (some (16 : ℝ)).isSome = true from Or.inl rfl,
    eq_false (by decide : ¬(("America/New_York" : String) = "")),
    ne_eq, not_false_eq_true, if_true, if_false]
  norm_num [jsClamp, List.sum_cons, List.sum_nil, List.map_cons, List.map_nil]

/-! ### Evaluating the network analyzer on `richInfo` -/

theorem rich_network_score :
    (analyzeNetwork benignNetEnv richInfo benignReq).score = 95 := by
  simp only [analyzeNetwork,
    show jsStrOpt (getClientIp benignReq) = some "9.9.9.9" from rfl,
    show benignNetEnv.isPrivate = false from rfl,
    show benignNetEnv.geo = some ⟨"US"⟩ from rfl,
    show benignNetEnv.datacenter = some false from rfl,
    show benignNetEnv.vpn = some false from rfl,
    show jsStrOpt richInfo.timezone = some "America/New_York" from rfl,
    show jsStrOpt richInfo.language = some "en-US" from rfl,
    show checkIpTimezoneMatch ⟨"US"⟩ "America/New_York" = true from rfl,
    show checkIpLanguageMatch ⟨"US"⟩ "en-US" = true from rfl,
    show checkProxyHeaders benignReq.headers = ⟨false, []⟩ from rfl,
    show checkHeaderConsistency benignReq.headers = ⟨true, []⟩ from rfl,
    show benignReq.cipher = none from rfl,
    Bool.false_eq_true, if_false, if_true]
  norm_num [jsClamp]

/-! ### The C1/C2 trace: create, verify, then ten click events -/

noncomputable def richS0 : Session :=
  (createSession benignParse benignNetEnv richBody benignReq richPUA "sid" 0).2

theorem richS0_automation :
    richS0.analysis.automation = some ⟨false, 0, [], []⟩ := by
  rw [show richS0.analysis.automation =
    some (detectAutomation benignParse (mkClientInfo richBody benignReq richPUA)) from rfl,
    mkClientInfo_rich, rich_automation]

theorem richS0_status : richS0.status = Status.pending := by
  rw [show richS0.status =
    (if ((detectAutomation benignParse (mkClientInfo richBody benignReq richPUA)).isAutomated
        && decide (80 < (detectAutomation benignParse
          (mkClientInfo richBody benignReq richPUA)).automationScore)) = true
      then Status.rejected else Status.pending) from rfl,
    mkClientInfo_rich, rich_automation]
  simp

theorem richS0_facts :
    richS0.events = [] ∧ richS0.createdAt = 0 ∧ richS0.analysis.behavior = none ∧
    richS0.clientInfo = richInfo ∧
    richS0.analysis.fingerprint = some (analyzeFingerprint (some richInfo)) ∧
    richS0.analysis.network = some (analyzeNetwork benignNetEnv richInfo benignReq) ∧
    richS0.rejectionReason = none := by
  refine ⟨rfl, rfl, rfl, ?_, ?_, ?_, ?_⟩
  · exact mkClientInfo_rich
  · rw [show richS0.analysis.fingerprint =
      some (analyzeFingerprint (some (mkClientInfo richBody benignReq richPUA))) from rfl,
      mkClientInfo_rich]
  · rw [show richS0.analysis.network =
      some (analyzeNetwork benignNetEnv (mkClientInfo richBody benignReq richPUA) benignReq)
      from rfl, mkClientInfo_rich]
  · rw [show richS0.rejectionReason =
      (if ((detectAutomation benignParse (mkClientInfo richBody benignReq richPUA)).isAutomated
          && decide (80 < (detectAutomation benignParse
            (mkClientInfo richBody benignReq richPUA)).automationScore)) = true
        then some ("检测到自动化工具: " ++ String.intercalate ", "
          (detectAutomation benignParse
            (mkClientInfo richBody benignReq richPUA)).detectedTools)
        else none) from rfl,
      mkClientInfo_rich, rich_automation]
    simp

theorem rich_verify_isHuman : (verifySession richS0 benignReq 5000).isHuman = true := by
  obtain ⟨hev, hcr, hb, hci, hfp, hnet, hrr⟩ := richS0_facts
  have hterms : verifyScoreTermsNoPattern richS0 benignReq 5000 = 17.5 := by
    simp only [verifyScoreTermsNoPattern, richS0_automation, hb, hfp, hnet, hev, hcr, hci,
      rich_fingerprint_score, rich_network_score, List.length_nil,
      show hasDeviceInfo richInfo = true from rfl,
      show uaIncomplete richInfo = false from rfl,
      show checkSuspiciousHeaders benignReq.headers = ([] : List String) from rfl,
      Bool.false_eq_true, if_false, if_true]
    norm_num
  rw [show (verifySession richS0 benignReq 5000).isHuman =
      decide (60 ≤ jsClamp (verifyScoreTermsNoPattern richS0 benignReq 5000 +
        (if (analyzeRequestPattern richS0.events).suspicious = true then (-20 : ℝ) else 0) +
        50)) from rfl]
  rw [hterms, hev, show (analyzeRequestPattern []).suspicious = false from rfl]
  simp only [Bool.false_eq_true, if_false]
  rw [show jsClamp (17.5 + 0 + 50) = 67.5 from by norm_num [jsClamp]]
  exact decide_eq_true (by norm_num)

noncomputable def richS1 : Session := (evaluate none richS0 benignReq 5000).2

theorem richS1_facts : richS1.status = Status.verified ∧ richS1.events = [] ∧
    richS1.analysis.behavior = none := by
  obtain ⟨hev, hcr, hb, hci, hfp, hnet, hrr⟩ := richS0_facts
  have hnp : ¬(richS0.status ≠ Status.pending) := by rw [richS0_status]; simp
  have hXS : ({ richS0 with
      events := ([] : List Event)
      analysis := { richS0.analysis with behavior := none } } : Session) = richS0 := by
    rw [← hev, ← hb]
  rw [show richS1 = (evaluate none richS0 benignReq 5000).2 from rfl]
  simp only [evaluate, if_neg hnp, hb, Option.isNone_none, hev, List.length_nil,
    lt_irrefl, and_false, if_false, hXS, rich_verify_isHuman, if_true,
    show ¬(50 < 0) from by decide]
  exact ⟨trivial, trivial, trivial⟩

/-- One `POST /event` request with a bare click (no payload) at time `6000+i`. -/
noncomputable def clickAt (i : ℕ) (s : Session) : Session :=
  (recordEvent none s "click" none (6000 + (i : ℝ))).2

theorem clickAt_no_trigger (i : ℕ) (s : Session) (hst : s.status ≠ Status.rejected)
    (hlen : s.events.length + 1 < 10) :
    clickAt i s = { s with events := s.events ++ [⟨"click", none, 6000 + (i : ℝ)⟩] } := by
  simp only [clickAt, recordEvent, if_neg hst]
  rw [if_neg]
  · intro hcon
    have := hcon.1
    simp only [List.length_append, List.length_cons, List.length_nil] at this
    omega

theorem richS1_step (i : ℕ) (E : List Event) (hlen : E.length + 1 < 10) :
    clickAt i { richS1 with events := E } =
      { richS1 with events := E ++ [⟨"click", none, 6000 + (i : ℝ)⟩] } := by
  have hst : ({ richS1 with events := E } : Session).status ≠ Status.rejected := by
    rw [show ({ richS1 with events := E } : Session).status = richS1.status from rfl,
      richS1_facts.1]
    simp
  exact clickAt_no_trigger i _ hst hlen

noncomputable def richS2 : Session :=
  clickAt 9 (clickAt 8 (clickAt 7 (clickAt 6 (clickAt 5 (clickAt 4 (clickAt 3
    (clickAt 2 (clickAt 1 (clickAt 0 richS1)))))))))

theorem richS2_status : richS2.status = Status.rejected := by
  have h0 : richS1 = { richS1 with events := ([] : List Event) } := by
    conv_lhs => rw [show richS1 = { richS1 with events := richS1.events } from rfl]
    rw [richS1_facts.2.1]
  rw [show richS2 = clickAt 9 (clickAt 8 (clickAt 7 (clickAt 6 (clickAt 5 (clickAt 4
    (clickAt 3 (clickAt 2 (clickAt 1 (clickAt 0 richS1))))))))) from rfl, h0]
  rw [richS1_step 0 _ (by simp), richS1_step 1 _ (by simp), richS1_step 2 _ (by simp),
    richS1_step 3 _ (by simp), richS1_step 4 _ (by simp), richS1_step 5 _ (by simp),
    richS1_step 6 _ (by simp), richS1_step 7 _ (by simp), richS1_step 8 _ (by simp)]
  simp only [List.nil_append, List.cons_append, List.append_nil]
  -- the tenth event reaches the 10-event threshold and triggers the behavior
  -- analysis, which sees no mousemove events and reports a non-human score 0
  simp only [clickAt, recordEvent,
    if_neg (show ({ richS1 with events := [⟨"click", none, 6000 + ((0:ℕ) : ℝ)⟩,
      ⟨"click", none, 6000 + ((1:ℕ) : ℝ)⟩, ⟨"click", none, 6000 + ((2:ℕ) : ℝ)⟩,
      ⟨"click", none, 6000 + ((3:ℕ) : ℝ)⟩, ⟨"click", none, 6000 + ((4:ℕ) : ℝ)⟩,
      ⟨"click", none, 6000 + ((5:ℕ) : ℝ)⟩, ⟨"click", none, 6000 + ((6:ℕ) : ℝ)⟩,
      ⟨"click", none, 6000 + ((7:ℕ) : ℝ)⟩, ⟨"click", none, 6000 + ((8:ℕ) : ℝ)⟩] } :
        Session).status ≠ Status.rejected from by
      rw [show ({ richS1 with events := _ } : Session).status = richS1.status from rfl,
        richS1_facts.1]
      simp)]
  rw [if_pos]
  · rw [show analyzeBehavior (6000 + ((9:ℕ) : ℝ)) none
        ([⟨"click", none, 6000 + ((0:ℕ) : ℝ)⟩, ⟨"click", none, 6000 + ((1:ℕ) : ℝ)⟩,
          ⟨"click", none, 6000 + ((2:ℕ) : ℝ)⟩, ⟨"click", none, 6000 + ((3:ℕ) : ℝ)⟩,
          ⟨"click", none, 6000 + ((4:ℕ) : ℝ)⟩, ⟨"click", none, 6000 + ((5:ℕ) : ℝ)⟩,
          ⟨"click", none, 6000 + ((6:ℕ) : ℝ)⟩, ⟨"click", none, 6000 + ((7:ℕ) : ℝ)⟩,
          ⟨"click", none, 6000 + ((8:ℕ) : ℝ)⟩] ++ [⟨"click", none, 6000 + ((9:ℕ) : ℝ)⟩]) =
      some ⟨false, 0, ["鼠标移动事件太少"]⟩ from rfl]
    dsimp only
    rw [if_pos (show (false = false) ∧ ((0:ℝ) < 30) from ⟨rfl, by norm_num⟩)]
  · constructor
    · simp
    · rw [show ({ richS1 with events := _ } : Session).analysis.behavior =
        richS1.analysis.behavior from rfl, richS1_facts.2.2]
      rfl

/-- **C1 counterexample**: a `verified` session can still change status. The
session `richS0` built by `createSession` from the rich benign snapshot starts
`pending`; evaluating it (`richS1`) makes it `verified` with an empty event log
and no cached behavior analysis; ten subsequent bare `click` events (`richS2`,
all accepted because `/event` only guards the `rejected` status) trigger the
behavior analysis, which scores 0 and flips the session to `rejected`. This
refutes the claim that a `verified` session never changes status again. -/
theorem c1_counterexample :
    richS1 = (evaluate none richS0 benignReq 5000).2 ∧
    richS0.status = Status.pending ∧
    richS1.status = Status.verified ∧
    richS2.status = Status.rejected :=
  ⟨rfl, richS0_status, richS1_facts.1, richS2_status⟩

/-- **C2 counterexample**: the rich benign snapshot reports `webdriver: true`,
yet the session it creates starts `pending`, not `rejected` — the flag never
reaches the detector, whose `navigator` input `/init` does not populate. -/
theorem c2_counterexample :
    richBody.webdriver = some true ∧
    (createSession benignParse benignNetEnv richBody benignReq richPUA "sid" 0).2.status =
      Status.pending :=
  ⟨rfl, richS0_status⟩

/-- Five coordinate mousemoves followed by two payload-less clicks: enough
mouse data to pass the early returns, but reading `data.timestamp` on the
clicks throws. -/
noncomputable def throwEvents : List Event :=
  [⟨"mousemove", some ⟨some 0, some 0, some 10⟩, 10⟩,
   ⟨"mousemove", some ⟨some 1, some 0, some 110⟩, 110⟩,
   ⟨"mousemove", some ⟨some 2, some 0, some 210⟩, 210⟩,
   ⟨"mousemove", some ⟨some 3, some 0, some 310⟩, 310⟩,
   ⟨"mousemove", some ⟨some 4, some 0, some 410⟩, 410⟩,
   ⟨"click", none, 600⟩, ⟨"click", none, 700⟩]

/-- **C7 counterexample**: the behavior analyzer does not always produce a
score — on `throwEvents` the click-pattern stage reads `event.data.timestamp`
of a click that has no `data` object, which throws a `TypeError` in the JS
code (modeled by `none`), so the analyzer returns no score at all. -/
theorem c7_counterexample : analyzeBehavior 0 none throwEvents = none := rfl

/-- **C3 witness**: post-terminal idempotence of `Evaluate` at the concrete
rejected-session literal. -/
theorem c3_terminal_evaluate_idempotent_witness :
    evaluate none rejectedSessionLit emptyReq 1 =
      (cachedResult rejectedSessionLit, rejectedSessionLit) ∧
    (evaluate none (evaluate none rejectedSessionLit emptyReq 1).2 emptyReq 2).1 =
      (evaluate none rejectedSessionLit emptyReq 1).1 :=
  c3_terminal_evaluate_idempotent none none rejectedSessionLit emptyReq emptyReq 1 2
    (fun h => Status.noConfusion h)

/-- **C3 counterexample**: the call that turns `richS0` into the terminal
session `richS1` answers with a fresh result object (`score`, `reasons`,
`details`), while every later call answers with the differently-shaped cached
verdict (rejection reason only, `automationDetected`/`detectedTools`) — the
two responses are not identical. -/
theorem c3_counterexample :
    richS1 = (evaluate none richS0 benignReq 5000).2 ∧
    (evaluate none richS1 benignReq 6000).1 ≠ (evaluate none richS0 benignReq 5000).1 := by
  refine ⟨rfl, ?_⟩
  obtain ⟨hev, hcr, hb, hci, hfp, hnet, hrr⟩ := richS0_facts
  have hnp : ¬(richS0.status ≠ Status.pending) := by rw [richS0_status]; simp
  have hnp1 : richS1.status ≠ Status.pending := by rw [richS1_facts.1]; simp
  have hL : (evaluate none richS1 benignReq 6000).1 = cachedResult richS1 := by
    simp [evaluate, hnp1]
  rw [hL]
  have hXS : ({ richS0 with
      events := ([] : List Event)
      analysis := { richS0.analysis with behavior := none } } : Session) = richS0 := by
    rw [← hev, ← hb]
  simp only [evaluate, if_neg hnp, hb, Option.isNone_none, hev, List.length_nil,
    lt_irrefl, and_false, if_false, hXS]
  simp [cachedResult]

/-- **C4 counterexample**: `RecordEvent` on the *verified* session `richS1`
still appends the event to the log — only `rejected` is guarded. -/
theorem c4_counterexample :
    richS1.status = Status.verified ∧
    (recordEvent none richS1 "click" none 6000).2.events =
      richS1.events ++ [⟨"click", none, 6000⟩] := by
  refine ⟨richS1_facts.1, ?_⟩
  have hst : ¬(richS1.status = Status.rejected) := by rw [richS1_facts.1]; simp
  simp only [recordEvent, if_neg hst]
  rw [if_neg]
  intro hcon
  have := hcon.1
  rw [List.length_append, richS1_facts.2.1] at this
  simp at this

/-- A snapshot whose only anomaly is a Selenium-branded user agent. -/
noncomputable def seleniumInfo : ClientInfo :=
  { tinyClientInfo with userAgent := some "Mozilla/5.0 selenium" }

theorem selph_wd : detectWebDriver (seleniumInfo.navigator.getD emptyNavigator) = false :=
  rfl

theorem selph_detected : (detectSelenium seleniumInfo.userAgent
    (seleniumInfo.window.getD emptyWindow)).detected = true := rfl

theorem selph_pup : (detectPuppeteer seleniumInfo.userAgent
    (seleniumInfo.navigator.getD emptyNavigator)
    (seleniumInfo.window.getD emptyWindow)).detected = false := by
  simp only [detectPuppeteer,
    show jsStrOpt seleniumInfo.userAgent = some "Mozilla/5.0 selenium" from rfl]
  simp only [show (jsIncludes "Mozilla/5.0 selenium" "HeadlessChrome") = false from rfl,
    show ((seleniumInfo.navigator.getD emptyNavigator).plugins ==
      some ([] : List String)) = false from rfl,
    show (seleniumInfo.window.getD emptyWindow).chrome = none from rfl,
    show ((seleniumInfo.navigator.getD emptyNavigator).languages ==
      some ([] : List String)) = false from rfl]
  simp only [Bool.false_eq_true, if_false, Bool.false_or, decide_eq_false_iff_not]
  norm_num

theorem selph_play : (detectPlaywright seleniumInfo.userAgent
    (seleniumInfo.navigator.getD emptyNavigator)
    (seleniumInfo.window.getD emptyWindow)).detected = false := by
  simp only [detectPlaywright,
    show jsStrOpt seleniumInfo.userAgent = some "Mozilla/5.0 selenium" from rfl]
  simp only [show (seleniumInfo.navigator.getD emptyNavigator).permissionsQuery = false
      from rfl,
    show (jsIncludes "Mozilla/5.0 selenium" "Playwright") = false from rfl,
    show (seleniumInfo.window.getD emptyWindow).webGLRenderingContext = false from rfl]
  simp only [Bool.false_eq_true, if_false, Bool.false_or, decide_eq_false_iff_not]
  norm_num

theorem selph_incons : (detectBrowserInconsistency seleniumInfo.userAgent
    seleniumInfo.headers (seleniumInfo.navigator.getD emptyNavigator)
    benignParse).detected = false := rfl

theorem selph_screen : detectAbnormalScreenSize seleniumInfo = false := rfl

theorem selph_tz : detectAbnormalTimezone seleniumInfo = false := rfl

theorem selph_plug :
    detectAbnormalPluginCount (seleniumInfo.navigator.getD emptyNavigator) = false := rfl

theorem selph_hw : detectAbnormalHardwareConcurrency
    (seleniumInfo.navigator.getD emptyNavigator) = false := rfl

theorem selph_lang : detectAbnormalLanguage (seleniumInfo.navigator.getD emptyNavigator)
    seleniumInfo.headers = true := rfl

theorem selph_uaCons :
    checkUserAgentConsistency seleniumInfo.userAgent seleniumInfo.headers = true := rfl

theorem selph_score : (detectSelenium seleniumInfo.userAgent
    (seleniumInfo.window.getD emptyWindow)).score = 25 := by
  rw [show (detectSelenium seleniumInfo.userAgent
      (seleniumInfo.window.getD emptyWindow)).score =
    ((if true = true then (25:ℝ) else 0) + (if false = true then (20:ℝ) else 0) +
      (if false = true then (25:ℝ) else 0)) from rfl]
  norm_num

theorem selph_raw : detectAutomationRawScore benignParse seleniumInfo = 30 := by
  rw [detectAutomationRawScore]
  simp only [selph_wd, selph_detected, selph_pup, selph_play, selph_incons, selph_screen,
    selph_tz, selph_plug, selph_hw, selph_lang, selph_uaCons, selph_score,
    Bool.false_eq_true, if_false, if_true, Bool.not_true]
  norm_num

/-- **C5 counterexample**: a snapshot whose user agent merely contains
`selenium`: the WebDriver check does not fire and the score is 30 < 50, yet
`isAutomated` is true because the Selenium detector reported `detected`. -/
theorem c5_counterexample :
    (detectAutomation benignParse seleniumInfo).isAutomated = true ∧
    detectWebDriver (seleniumInfo.navigator.getD emptyNavigator) = false ∧
    (detectAutomation benignParse seleniumInfo).automationScore < 50 := by
  refine ⟨?_, selph_wd, ?_⟩
  · rw [detectAutomation_isAutomated]
    simp [selph_detected]
  · rw [detectAutomation_score, selph_raw]
    norm_num

/-- **C10 witness**: the Selenium-flagged snapshot is reported automated, and
its detected-tools list is indeed non-empty. -/
theorem c10_isAutomated_names_a_tool_witness :
    (detectAutomation benignParse seleniumInfo).detectedTools ≠ [] :=
  c10_isAutomated_names_a_tool benignParse seleniumInfo (by
    rw [detectAutomation_isAutomated]
    simp [selph_detected])

/-- **C6 (amended)**: the click-without-movement check fires only on a log of
at least three events with the click at a positive index: then
`analyzeRequestPattern` reports suspicious and `verifySession` applies the
fixed −20 penalty to the score. -/
theorem c6_click_without_movement (s : Session) (req : Req) (now : ℝ) (i : ℕ) (e : Event)
    (h3 : 3 ≤ s.events.length) (hi : 0 < i) (he : s.events[i]? = some e)
    (hclick : e.type = "click")
    (hnomouse : ∀ p ∈ s.events.take i, ¬ p.type = "mousemove") :
    (analyzeRequestPattern s.events).suspicious = true ∧
    (verifySession s req now).score =
      jsClamp (verifyScoreTermsNoPattern s req now + -20 + 50) := by
  have hsusp : (analyzeRequestPattern s.events).suspicious = true := by
    rw [analyzeRequestPattern]
    dsimp only
    rw [if_pos h3]
    have hany : (s.events.enum.any fun ie =>
        decide (ie.2.type = "click") && decide (0 < ie.1) &&
          !((s.events.take ie.1).any fun p => p.type == "mousemove")) = true := by
      rw [List.any_eq_true]
      refine ⟨(i, e), List.mem_enum_iff_getElem?.mpr he, ?_⟩
      have h1 : decide (e.type = "click") = true := decide_eq_true hclick
      have h2 : decide (0 < i) = true := decide_eq_true hi
      have hno : ((s.events.take i).any fun p => p.type == "mousemove") = false := by
        rw [List.any_eq_false]
        intro p hp
        simpa using hnomouse p hp
      simp only [h1, h2, hno, Bool.and_self, Bool.not_false, Bool.and_true]
    rw [hany]
    simp
  refine ⟨hsusp, ?_⟩
  rw [show (verifySession s req now).score =
    jsClamp (verifyScoreTermsNoPattern s req now +
      (if (analyzeRequestPattern s.events).suspicious then (-20:ℝ) else 0) + 50) from rfl,
    hsusp]
  rw [if_pos rfl]

/-- A three-event log whose only click is its very first event. -/
noncomputable def c6Events : List Event :=
  [⟨"click", none, 100⟩, ⟨"keypress", none, 200⟩, ⟨"keypress", none, 300⟩]

/-- **C6 counterexample**: the click at index 0 of `c6Events` has no mousemove
anywhere before it, yet the request-pattern check does not flag the log — the
code skips clicks at index 0, so the flag is not applied "regardless of how
many other events the session holds". -/
theorem c6_counterexample :
    c6Events[0]?.map Event.type = some "click" ∧
    (∀ p ∈ c6Events.take 0, ¬ p.type = "mousemove") ∧
    (analyzeRequestPattern c6Events).suspicious = false :=
  ⟨rfl, by simp, rfl⟩

/-- A pending session holding `keypress, click, keypress`. -/
noncomputable def c6WitnessSession : Session :=
  { id := "s-c6", createdAt := 0, status := Status.pending
    clientInfo := tinyClientInfo
    events := [⟨"keypress", none, 100⟩, ⟨"click", none, 200⟩, ⟨"keypress", none, 300⟩]
    analysis := emptyAnalysis
    rejectionReason := none, verifiedAt := none, verificationScore := none }

/-- **C6 witness**: the amended click-without-movement property at a concrete
three-event session whose click sits at index 1. -/
theorem c6_click_without_movement_witness :
    (analyzeRequestPattern c6WitnessSession.events).suspicious = true ∧
    (verifySession c6WitnessSession emptyReq 0).score =
      jsClamp (verifyScoreTermsNoPattern c6WitnessSession emptyReq 0 + -20 + 50) :=
  c6_click_without_movement c6WitnessSession emptyReq 0 1 ⟨"click", none, 200⟩
    (le_of_eq rfl) Nat.one_pos rfl rfl
    (by
      intro p hp
      rw [show c6WitnessSession.events.take 1 =
        [(⟨"keypress", none, 100⟩ : Event)] from rfl, List.mem_singleton] at hp
      subst hp
      decide)

/-- Ten mousemove events on a straight line: positions advance by `(vx, vy)`
per step, client and server timestamps by 100 ms, starting at `t`. -/
noncomputable def c9Events (t px py vx vy : ℝ) : List Event :=
  [⟨"mousemove", some ⟨some px, some py, some t⟩, t⟩,
   ⟨"mousemove", some ⟨some (px + vx), some (py + vy), some (t + 100)⟩, t + 100⟩,
   ⟨"mousemove", some ⟨some (px + 2 * vx), some (py + 2 * vy), some (t + 200)⟩, t + 200⟩,
   ⟨"mousemove", some ⟨some (px + 3 * vx), some (py + 3 * vy), some (t + 300)⟩, t + 300⟩,
   ⟨"mousemove", some ⟨some (px + 4 * vx), some (py + 4 * vy), some (t + 400)⟩, t + 400⟩,
   ⟨"mousemove", some ⟨some (px + 5 * vx), some (py + 5 * vy), some (t + 500)⟩, t + 500⟩,
   ⟨"mousemove", some ⟨some (px + 6 * vx), some (py + 6 * vy), some (t + 600)⟩, t + 600⟩,
   ⟨"mousemove", some ⟨some (px + 7 * vx), some (py + 7 * vy), some (t + 700)⟩, t + 700⟩,
   ⟨"mousemove", some ⟨some (px + 8 * vx), some (py + 8 * vy), some (t + 800)⟩, t + 800⟩,
   ⟨"mousemove", some ⟨some (px + 9 * vx), some (py + 9 * vy), some (t + 900)⟩, t + 900⟩]

theorem c9_coords (now t px py vx vy : ℝ) (ht : 0 < t) :
    trajCoords now (c9Events t px py vx vy) =
      [((px, py), t), ((px + vx, py + vy), t + 100),
       ((px + 2 * vx, py + 2 * vy), t + 200), ((px + 3 * vx, py + 3 * vy), t + 300),
       ((px + 4 * vx, py + 4 * vy), t + 400), ((px + 5 * vx, py + 5 * vy), t + 500),
       ((px + 6 * vx, py + 6 * vy), t + 600), ((px + 7 * vx, py + 7 * vy), t + 700),
       ((px + 8 * vx, py + 8 * vy), t + 800), ((px + 9 * vx, py + 9 * vy), t + 900)] := by
  have hne : ∀ c : ℝ, (0:ℝ) ≤ c → ¬(t + c = 0) := fun c hc h0 => by linarith
  simp only [c9Events, trajCoords, List.filterMap_cons, List.filterMap_nil, jsOrNum,
    if_neg ht.ne', if_neg (hne 100 (by norm_num)), if_neg (hne 200 (by norm_num)),
    if_neg (hne 300 (by norm_num)), if_neg (hne 400 (by norm_num)),
    if_neg (hne 500 (by norm_num)), if_neg (hne 600 (by norm_num)),
    if_neg (hne 700 (by norm_num)), if_neg (hne 800 (by norm_num)),
    if_neg (hne 900 (by norm_num))]

theorem jsStdDev_replicate (n : ℕ) (s : ℝ) : jsStdDev (List.replicate n s) = 0 := by
  rcases Nat.eq_zero_or_pos n with h | h
  · subst h
    simp [jsStdDev, jsMean]
  · have hm : jsMean (List.replicate n s) = s := by
      rw [jsMean, List.sum_replicate, List.length_replicate, nsmul_eq_mul]
      field_simp
    rw [jsStdDev, hm, List.map_replicate]
    simp

theorem c9_speeds (now t px py vx vy : ℝ) (ht : 0 < t) :
    trajSpeeds (trajCoords now (c9Events t px py vx vy)) =
      List.replicate 9 (Real.sqrt (vx ^ 2 + vy ^ 2) / (100 / 1000)) := by
  rw [c9_coords now t px py vx vy ht]
  simp only [trajSpeeds, consecPairs, List.filterMap_cons, List.filterMap_nil]
  norm_num [List.replicate]
  ring_nf
  norm_num

theorem c9_traj (now t px py vx vy : ℝ) (pca : Option ℝ) (ht : 0 < t) :
    (analyzeMouseTrajectory now pca (c9Events t px py vx vy)).isNatural = false := by
  rw [analyzeMouseTrajectory.eq_def]
  rw [if_neg (by rw [show (c9Events t px py vx vy).length = 10 from rfl]; norm_num)]
  dsimp only
  rw [if_neg (by rw [c9_coords now t px py vx vy ht]; norm_num)]
  dsimp only
  rw [show (jsStdDev (trajSpeeds (trajCoords now (c9Events t px py vx vy)))) =
      jsStdDev (List.replicate 9 (Real.sqrt (vx ^ 2 + vy ^ 2) / (100 / 1000))) from by
    rw [c9_speeds now t px py vx vy ht]]
  rw [jsStdDev_replicate]
  simp only [show decide ((50:ℝ) < 0) = false from by
    rw [decide_eq_false_iff_not]; norm_num, Bool.false_and]

theorem c9_timestamps (now t px py vx vy : ℝ) (ht : 0 < t) :
    (c9Events t px py vx vy).map (eventTime now) =
      [t, t + 100, t + 200, t + 300, t + 400, t + 500, t + 600, t + 700, t + 800,
       t + 900] := by
  have hne : ∀ c : ℝ, (0:ℝ) ≤ c → ¬(t + c = 0) := fun c hc h0 => by linarith
  simp only [c9Events, List.map_cons, List.map_nil, eventTime, Option.bind, jsOrNum,
    if_neg ht.ne', if_neg (hne 100 (by norm_num)), if_neg (hne 200 (by norm_num)),
    if_neg (hne 300 (by norm_num)), if_neg (hne 400 (by norm_num)),
    if_neg (hne 500 (by norm_num)), if_neg (hne 600 (by norm_num)),
    if_neg (hne 700 (by norm_num)), if_neg (hne 800 (by norm_num)),
    if_neg (hne 900 (by norm_num))]

theorem c9_timing (now t px py vx vy : ℝ) (ht : 0 < t) :
    (analyzeEventTimeIntervals now (c9Events t px py vx vy)).isNatural = false := by
  rw [analyzeEventTimeIntervals.eq_def]
  rw [if_neg (by rw [show (c9Events t px py vx vy).length = 10 from rfl]; norm_num)]
  dsimp only
  have hint : (consecPairs ((c9Events t px py vx vy).map (eventTime now))).map
      (fun ab => ab.2 - ab.1) = List.replicate 9 (100:ℝ) := by
    rw [c9_timestamps now t px py vx vy ht]
    simp only [consecPairs, List.map_cons, List.map_nil, List.replicate]
    norm_num
  rw [hint, jsStdDev_replicate]
  rw [show jsDivLt 0
      ((List.replicate 9 (100:ℝ)).sum / ((List.replicate 9 (100:ℝ)).length : ℝ)) 0.1 =
      true from by
    rw [List.sum_replicate, List.length_replicate, nsmul_eq_mul, jsDivLt]
    rw [if_neg (by norm_num)]
    rw [decide_eq_true_eq]
    norm_num]
  simp

/-- **C9**: on ten mousemoves along a straight line at constant velocity and a
constant 100 ms cadence, the speed variation and the interval coefficient of
variation are both zero, so the trajectory and timing sub-checks each report
non-natural, and the behavior score collects no positive delta at all: the
analyzer returns `isHuman = false`, score 0, with all three non-keyboard
reasons. -/
theorem c9_constant_motion_not_natural (now t px py vx vy : ℝ) (pca : Option ℝ)
    (ht : 0 < t) :
    (analyzeMouseTrajectory now pca (c9Events t px py vx vy)).isNatural = false ∧
    (analyzeEventTimeIntervals now (c9Events t px py vx vy)).isNatural = false ∧
    analyzeBehavior now pca (c9Events t px py vx vy) =
      some ⟨false, 0, ["鼠标移动轨迹不自然", "点击模式不自然", "事件时间间隔不自然"]⟩ := by
  refine ⟨c9_traj now t px py vx vy pca ht, c9_timing now t px py vx vy ht, ?_⟩
  rw [analyzeBehavior.eq_def]
  rw [if_neg (by rw [show (c9Events t px py vx vy).length = 10 from rfl]; norm_num)]
  dsimp only
  rw [show List.filter (fun e => e.type == "mousemove") (c9Events t px py vx vy) =
    c9Events t px py vx vy from rfl]
  rw [if_neg (by rw [show (c9Events t px py vx vy).length = 10 from rfl]; norm_num)]
  rw [show List.filter (fun e => e.type == "click") (c9Events t px py vx vy) =
    ([] : List Event) from rfl]
  rw [show analyzeClickPattern now ([] : List Event) (c9Events t px py vx vy) =
    some ⟨false, 0, 0⟩ from rfl]
  dsimp only
  rw [show List.filter (fun e => e.type == "keypress") (c9Events t px py vx vy) =
    ([] : List Event) from rfl]
  simp only [List.length_nil, lt_irrefl, if_false,
    c9_traj now t px py vx vy pca ht, c9_timing now t px py vx vy ht,
    Bool.false_eq_true, if_false]
  norm_num

/-- **C9 witness**: the straight-line trace starting at the origin with
velocity `(3, 4)` and first timestamp 1000. -/
theorem c9_constant_motion_not_natural_witness :
    (analyzeMouseTrajectory 0 (some 1) (c9Events 1000 0 0 3 4)).isNatural = false ∧
    (analyzeEventTimeIntervals 0 (c9Events 1000 0 0 3 4)).isNatural = false ∧
    analyzeBehavior 0 (some 1) (c9Events 1000 0 0 3 4) =
      some ⟨false, 0, ["鼠标移动轨迹不自然", "点击模式不自然", "事件时间间隔不自然"]⟩ :=
  c9_constant_motion_not_natural 0 1000 0 0 3 4 (some 1) (by norm_num)

/-- **C1 witness**: the amended status machine applied to the concrete
rejected-session literal: both `/event` and `/verify` leave it untouched and
answer with the cached verdict. -/
theorem c1_status_machine_witness :
    recordEvent none rejectedSessionLit "click" none 0 =
      (.rejectedResp (jsStrOpt rejectedSessionLit.rejectionReason),
        rejectedSessionLit) ∧
    evaluate none rejectedSessionLit emptyReq 0 =
      (cachedResult rejectedSessionLit, rejectedSessionLit) :=
  (c1_status_machine none rejectedSessionLit "click" none emptyReq 0).1 rfl

end InkTrust
